import Mathlib

/-!
Verification of the k8s-cost-optimizer recommendation engine and control loop.

Shallow embedding conventions:
* Python floats are modelled as exact rationals (`ℚ`); `round` is Python 3's
  round-half-to-even (`pyRound`), `int(...)` is truncation toward zero
  (`pyInt`), `math.ceil` is `Int.ceil`.
* Kubernetes quantity strings ("500m", "1.5", "512Mi", ...) are modelled by
  the inductives `CpuQty`/`MemQty`, whose constructors mirror the string
  shapes that `_parse_cpu`/`_parse_memory`/`_format_cpu`/`_format_memory`
  distinguish; equality of `ResourceSpec` is structural, mirroring Python
  string equality of the formatted values.
* HTTP collaborators (pricing API, spot-price API) are modelled as oracles:
  `Option` payloads, where `none` stands for any failure (timeout, error
  status, malformed body) that the `try/except` turns into the fallback.
* Python exceptions escaping a function are modelled with `Except Unit`;
  pydantic validation on model construction (fields declared with
  ge/le bounds) is modelled by explicit validity checks.
* Presentational free-text fields (ids, titles, descriptions, timestamps)
  that no claim mentions are omitted from the record types; numeric string
  interpolation inside retained messages is abstracted by `toString`.
-/

namespace KCO


/-- Python 3 `round` on rationals: round half to even. -/
def pyRound (q : ℚ) : ℤ :=
  let f := ⌊q⌋
  let r := q - (f : ℚ)
  if r < 1/2 then f
  else if 1/2 < r then f + 1
  else if Even f then f else f + 1

/-- Python `int(...)` on a float: truncation toward zero. -/
def pyInt (q : ℚ) : ℤ :=
  if 0 ≤ q then ⌊q⌋ else -⌊-q⌋

/-- Python `max(a, b)` (kernel-reducible, unlike the lattice `Max.max`). -/
def pymax {α : Type} [LinearOrder α] (a b : α) : α :=
  if a ≤ b then b else a

/-- Python `min(a, b)` (kernel-reducible, unlike the lattice `Min.min`). -/
def pymin {α : Type} [LinearOrder α] (a b : α) : α :=
  if a ≤ b then a else b

/-- Shapes of cpu quantity strings: `"<n>m"` (millicores) or a plain decimal
number of cores (as in `_parse_cpu` / `_format_cpu`). -/
inductive CpuQty
  | milli (v : ℤ)
  | cores (v : ℚ)
deriving DecidableEq, Repr

/-- Shapes of memory quantity strings with the suffixes recognised by
`CostCalculator._parse_memory`, or a plain byte count. -/
inductive MemQty
  | Ki (v : ℚ)
  | Mi (v : ℚ)
  | Gi (v : ℚ)
  | K (v : ℚ)
  | M (v : ℚ)
  | G (v : ℚ)
  | bytes (v : ℤ)
deriving DecidableEq, Repr

/-- `_parse_cpu`: `"<n>m"` divides by 1000, otherwise the number itself. -/
def parseCpu : CpuQty → ℚ
  | .milli v => (v : ℚ) / 1000
  | .cores v => v

/-- `CostCalculator._parse_memory`: multiply by the suffix factor and
truncate to an integer byte count. -/
def parseMemory : MemQty → ℤ
  | .Ki v => pyInt (v * 1024)
  | .Mi v => pyInt (v * (1024 * 1024))
  | .Gi v => pyInt (v * (1024 * 1024 * 1024))
  | .K v => pyInt (v * 1000)
  | .M v => pyInt (v * (1000 * 1000))
  | .G v => pyInt (v * (1000 * 1000 * 1000))
  | .bytes v => v

/-- `MLEngine._format_cpu`: below one core print integer millicores,
otherwise a decimal with one fractional digit (`"%.1f"`, half-to-even). -/
def formatCpu (q : ℚ) : CpuQty :=
  if q < 1 then .milli (pyInt (q * 1000))
  else .cores ((pyRound (q * 10) : ℚ) / 10)

/-- `MLEngine._format_memory` on an integer byte count: Ki/Mi/Gi with
Python floor division. -/
def formatMemory (b : ℤ) : MemQty :=
  if b < 1024 * 1024 then .Ki ((Int.fdiv b 1024 : ℤ) : ℚ)
  else if b < 1024 * 1024 * 1024 then .Mi ((Int.fdiv b (1024 * 1024) : ℤ) : ℚ)
  else .Gi ((Int.fdiv b (1024 * 1024 * 1024) : ℤ) : ℚ)

/-- `models.ResourceSpec` (quantity strings, structurally compared). -/
structure ResourceSpec where
  cpu_request : CpuQty
  memory_request : MemQty
  cpu_limit : CpuQty
  memory_limit : MemQty
deriving DecidableEq, Repr

/-- `models.Workload` restricted to the fields the optimizer logic reads
(kind, replica count, resource spec); identity strings are omitted. -/
structure Workload where
  kind : String
  replicas : ℤ
  current_resources : ResourceSpec
deriving DecidableEq, Repr

/-- `models.MetricStats`. -/
structure MetricStats where
  avg : ℚ
  p50 : ℚ
  p95 : ℚ
  p99 : ℚ
  max : ℚ
  min : ℚ
deriving DecidableEq, Repr

/-- `models.WorkloadMetrics` (the workload-id string is omitted). -/
structure WorkloadMetrics where
  cpu_usage : MetricStats
  memory_usage : MetricStats
  cpu_utilization_pct : ℚ
  memory_utilization_pct : ℚ
  sample_count : ℤ
  time_range_hours : ℤ
deriving DecidableEq, Repr

/-- `MLEngine._calculate_variance`. -/
def calculateVariance (stats : MetricStats) : ℚ :=
  if stats.avg = 0 then 0
  else |if 0 < stats.avg then (stats.p95 - stats.p50) / stats.avg else 0|

/-- The sample-count if-chain of `calculate_confidence`:
+0.2 / +0.15 / +0.1 for counts above 1000 / 500 / 100. -/
def sampleCountBonus (sample_count : ℤ) : ℚ :=
  if 1000 < sample_count then 2/10
  else if 500 < sample_count then 15/100
  else if 100 < sample_count then 1/10
  else 0

/-- The average-variance if-chain of `calculate_confidence`:
+0.2 / +0.1 below 0.15 / 0.3. -/
def varianceBonus (avg_variance : ℚ) : ℚ :=
  if avg_variance < 15/100 then 2/10
  else if avg_variance < 3/10 then 1/10
  else 0

/-- The observation-window if-chain of `calculate_confidence`:
+0.1 / +0.05 at 168h / 72h. -/
def windowBonus (time_range_hours : ℤ) : ℚ :=
  if 168 ≤ time_range_hours then 1/10
  else if 72 ≤ time_range_hours then 5/100
  else 0

/-- The right-sizing extreme-utilization bonus of `calculate_confidence`. -/
def extremeUtilBonus (optimization_type : String) (cpu_utilization_pct : ℚ) : ℚ :=
  if optimization_type = "right_sizing" ∧
      (cpu_utilization_pct < 20 ∨ 90 < cpu_utilization_pct) then 5/100
  else 0

/-- `MLEngine.calculate_confidence`: base 0.5 accumulated through the four
independent if-chains, clamped to 1.0. -/
def calculateConfidence (metrics : WorkloadMetrics) (optimization_type : String) : ℚ :=
  let avg_variance :=
    (calculateVariance metrics.cpu_usage + calculateVariance metrics.memory_usage) / 2
  pymin 1 (1/2 + sampleCountBonus metrics.sample_count + varianceBonus avg_variance +
    windowBonus metrics.time_range_hours +
    extremeUtilBonus optimization_type metrics.cpu_utilization_pct)

/-- Result dict of `MLEngine.detect_patterns`. -/
structure Patterns where
  has_business_hours_pattern : Bool
  has_weekend_pattern : Bool
  has_burst_pattern : Bool
  has_steady_pattern : Bool
  recommended_scaling : String
deriving DecidableEq, Repr

/-- `MLEngine.detect_patterns`. -/
def detectPatterns (metrics : WorkloadMetrics) : Patterns :=
  let cpu_variance := calculateVariance metrics.cpu_usage
  let memory_variance := calculateVariance metrics.memory_usage
  let p : Patterns :=
    if 4/10 < cpu_variance ∨ 3/10 < memory_variance then
      { has_business_hours_pattern := false, has_weekend_pattern := false,
        has_burst_pattern := true, has_steady_pattern := false,
        recommended_scaling := "horizontal" }
    else if cpu_variance < 15/100 ∧ memory_variance < 15/100 then
      { has_business_hours_pattern := false, has_weekend_pattern := false,
        has_burst_pattern := false, has_steady_pattern := true,
        recommended_scaling := "none" }
    else
      { has_business_hours_pattern := true, has_weekend_pattern := false,
        has_burst_pattern := false, has_steady_pattern := false,
        recommended_scaling := "scheduled" }
  if metrics.cpu_utilization_pct < 30 ∧ metrics.memory_utilization_pct < 30 then
    { p with recommended_scaling := "downsize" }
  else p

/-- `MLEngine.right_size_resources`. -/
def rightSizeResources (_workload : Workload) (metrics : WorkloadMetrics) :
    ResourceSpec × ℚ :=
  let recommended_cpu := metrics.cpu_usage.p95 * (115/100)
  let recommended_memory := metrics.memory_usage.p95 * (115/100)
  let new_spec : ResourceSpec :=
    { cpu_request := formatCpu recommended_cpu
      memory_request := formatMemory (pyInt recommended_memory)
      cpu_limit := formatCpu (recommended_cpu * (3/2))
      memory_limit := formatMemory (pyInt (recommended_memory * (13/10))) }
  (new_spec, calculateConfidence metrics "right_sizing")

/-- The replica recommendation of `MLEngine.optimize_replicas` before the
anti-thrash step (branch on utilization, then the StatefulSet guard). -/
def optimizeReplicasRaw (workload : Workload) (metrics : WorkloadMetrics)
    (target_utilization : ℚ) : ℤ :=
  let current_replicas := workload.replicas
  let max_utilization :=
    pymax metrics.cpu_utilization_pct metrics.memory_utilization_pct
  let recommended :=
    if max_utilization < 30 then
      if max_utilization < 15 then pymax 1 ⌈(current_replicas : ℚ) * (1/2)⌉
      else pymax 1 (current_replicas - 1)
    else if 85 < max_utilization then
      ⌈(current_replicas : ℚ) * (max_utilization / target_utilization)⌉
    else
      pymax 1 (pyRound ((current_replicas : ℚ) * (max_utilization / target_utilization)))
  if workload.kind = "StatefulSet" ∧ recommended < current_replicas then
    current_replicas
  else recommended

/-- `MLEngine.optimize_replicas`: `none` models the ZeroDivisionError raised
by the anti-thrash division when the current replica count is 0. -/
def optimizeReplicas (workload : Workload) (metrics : WorkloadMetrics)
    (target_utilization : ℚ) : Option (ℤ × ℚ) :=
  if workload.replicas = 0 then none
  else
    let recommended := optimizeReplicasRaw workload metrics target_utilization
    let confidence := calculateConfidence metrics "replica_optimization"
    if (|recommended - workload.replicas| : ℚ) / (workload.replicas : ℚ) < 15/100 then
      some (workload.replicas, confidence)
    else some (recommended, confidence)

/-- `MLEngine.detect_unused_resources`. -/
def detectUnusedResources (metrics : WorkloadMetrics) (threshold_pct : ℚ) : Bool :=
  metrics.cpu_utilization_pct < threshold_pct ∧
    metrics.memory_utilization_pct < threshold_pct

/-- `MLEngine.recommend_spot_instances`. -/
def recommendSpotInstances (workload : Workload) (metrics : WorkloadMetrics) :
    Bool × ℚ × String :=
  if workload.kind = "StatefulSet" ∨ workload.kind = "DaemonSet" then
    (false, 0, "StatefulSets and DaemonSets are not suitable for spot instances")
  else
    let patterns := detectPatterns metrics
    let confidence1 : ℚ := if patterns.has_burst_pattern then 7/10 - 2/10 else 7/10
    let reason1 := if patterns.has_burst_pattern then
        "Burst pattern detected, spot interruptions may impact performance"
      else ""
    let highUtil := 80 < metrics.cpu_utilization_pct ∨ 80 < metrics.memory_utilization_pct
    let confidence2 := if highUtil then confidence1 - 15/100 else confidence1
    let reason2 := if highUtil then
        "High utilization may be impacted by spot interruptions" else reason1
    if workload.replicas = 1 then
      (false, 0, "Single replica workload, spot interruptions would cause downtime")
    else
      (true, confidence2,
        if reason2 = "" then
          "Workload is suitable for spot instances with appropriate redundancy"
        else reason2)

/-- Result dict of `MLEngine.detect_scheduled_scaling_opportunity`; `Option`
fields mirror dict keys that are absent in some branches. -/
structure ScalingOpportunity where
  suitable : Bool
  strategy : String
  off_peak_scale_down : Option ℚ
  confidence : Option ℚ
deriving DecidableEq, Repr

/-- `MLEngine.detect_scheduled_scaling_opportunity` (the weekend branch is
unreachable because `detect_patterns` never sets the weekend flag). -/
def detectScheduledScalingOpportunity (metrics : WorkloadMetrics) : ScalingOpportunity :=
  let patterns := detectPatterns metrics
  if patterns.has_business_hours_pattern then
    { suitable := true, strategy := "business_hours",
      off_peak_scale_down := some (1/2), confidence := some (3/4) }
  else if patterns.has_weekend_pattern then
    { suitable := true, strategy := "weekend_reduction",
      off_peak_scale_down := none, confidence := some (7/10) }
  else
    { suitable := false, strategy := "none",
      off_peak_scale_down := none, confidence := some 0 }

/-- `models.CostBreakdown` (pydantic declares every field `ge=0`). -/
structure CostBreakdown where
  compute : ℚ
  memory : ℚ
  storage : ℚ
  network : ℚ
  total : ℚ
deriving DecidableEq, Repr

/-- `models.CostEstimate` (pydantic declares every field `ge=0`). -/
structure CostEstimate where
  hourly : ℚ
  daily : ℚ
  monthly : ℚ
  yearly : ℚ
  breakdown : CostBreakdown
deriving DecidableEq, Repr

/-- The pydantic `ge=0` bounds of `CostBreakdown` and `CostEstimate`,
enforced when the models are constructed. -/
def estimateValid (e : CostEstimate) : Prop :=
  0 ≤ e.hourly ∧ 0 ≤ e.daily ∧ 0 ≤ e.monthly ∧ 0 ≤ e.yearly ∧
    0 ≤ e.breakdown.compute ∧ 0 ≤ e.breakdown.memory ∧
    0 ≤ e.breakdown.storage ∧ 0 ≤ e.breakdown.network ∧ 0 ≤ e.breakdown.total

instance (e : CostEstimate) : Decidable (estimateValid e) := by
  unfold estimateValid; infer_instance

/-- The fields of a well-formed pricing-API response body that
`fetch_current_costs` / `calculate_optimized_costs` read. -/
structure PricingPayload where
  hourly_cost : ℚ
  monthly_cost : ℚ
  compute : ℚ
  memory : ℚ
  storage : ℚ
  network : ℚ
  total : ℚ
deriving DecidableEq, Repr

/-- `CostCalculator._fallback_cost_estimate`, parameterised by the parsed
cpu cores, memory bytes and replica count it uses. -/
def fallbackEstimateOf (cpu_cores : ℚ) (memory_bytes : ℤ) (replicas : ℤ) : CostEstimate :=
  let memory_gb : ℚ := (memory_bytes : ℚ) / (1024 ^ 3)
  let hourly_cost := (cpu_cores * (4/100) + memory_gb * (5/1000)) * (replicas : ℚ)
  let monthly_cost := hourly_cost * 730
  { hourly := hourly_cost
    daily := monthly_cost / 30
    monthly := monthly_cost
    yearly := monthly_cost * 12
    breakdown :=
      { compute := monthly_cost * (7/10)
        memory := monthly_cost * (2/10)
        storage := monthly_cost * (5/100)
        network := monthly_cost * (5/100)
        total := monthly_cost } }

/-- `CostCalculator._fallback_cost_estimate`. -/
def fallbackCostEstimate (workload : Workload) : CostEstimate :=
  fallbackEstimateOf (parseCpu workload.current_resources.cpu_request)
    (parseMemory workload.current_resources.memory_request) workload.replicas

/-- The `CostEstimate` the success path of `fetch_current_costs` builds from
a pricing payload, scaled by the replica count. -/
def successEstimateOf (p : PricingPayload) (replicas : ℤ) : CostEstimate :=
  let monthly_cost := p.monthly_cost * (replicas : ℚ)
  { hourly := p.hourly_cost * (replicas : ℚ)
    daily := monthly_cost / 30
    monthly := monthly_cost
    yearly := monthly_cost * 12
    breakdown :=
      { compute := p.compute, memory := p.memory, storage := p.storage,
        network := p.network, total := p.total } }

/-- `CostCalculator.fetch_current_costs`. The oracle `resp` is the pricing
collaborator: `none` is any failure (timeout, 4xx/5xx, malformed payload),
which the `try/except` turns into the local fallback. A payload that
violates the pydantic bounds also raises inside the `try` and falls back.
The fallback itself is constructed outside the `try`; a pydantic violation
there (negative parsed quantities) escapes, modelled by `Except.error`. -/
def fetchCurrentCosts (workload : Workload) (resp : Option PricingPayload) :
    Except Unit CostEstimate :=
  let fb := fallbackCostEstimate workload
  let useFallback : Except Unit CostEstimate :=
    if estimateValid fb then .ok fb else .error ()
  match resp with
  | none => useFallback
  | some p =>
    let e := successEstimateOf p workload.replicas
    if estimateValid e then .ok e else useFallback

/-- The `recommended_config` dict keys that `calculate_optimized_costs`
reads (absent keys fall back to the workload's current values). -/
structure RecommendedConfig where
  cpu_request : Option CpuQty
  memory_request : Option MemQty
  replicas : Option ℤ
deriving DecidableEq, Repr

/-- `CostCalculator._fallback_optimized_cost_estimate`. -/
def fallbackOptimizedCostEstimate (workload : Workload) (config : RecommendedConfig) :
    CostEstimate :=
  fallbackEstimateOf
    (parseCpu (config.cpu_request.getD workload.current_resources.cpu_request))
    (parseMemory (config.memory_request.getD workload.current_resources.memory_request))
    (config.replicas.getD workload.replicas)

/-- `CostCalculator.calculate_optimized_costs` (same flow as
`fetch_current_costs` against the proposed configuration). -/
def calculateOptimizedCosts (workload : Workload) (config : RecommendedConfig)
    (resp : Option PricingPayload) : Except Unit CostEstimate :=
  let fb := fallbackOptimizedCostEstimate workload config
  let useFallback : Except Unit CostEstimate :=
    if estimateValid fb then .ok fb else .error ()
  match resp with
  | none => useFallback
  | some p =>
    let e := successEstimateOf p (config.replicas.getD workload.replicas)
    if estimateValid e then .ok e else useFallback

/-- The spot/on-demand price pair for the inferred instance type, when the
spot-price endpoint answered and listed it. -/
structure SpotPayload where
  on_demand_price : ℚ
  spot_price : ℚ
  discount_percentage : ℚ
deriving DecidableEq, Repr

/-- The summary dict returned by `CostCalculator.spot_vs_ondemand`. -/
structure SpotSummary where
  on_demand_monthly : ℚ
  spot_monthly : ℚ
  monthly_savings : ℚ
  savings_percentage : ℚ
  discount_percentage : ℚ
deriving DecidableEq, Repr

/-- `CostCalculator.spot_vs_ondemand`: `none` covers both a failed request
and an instance type missing from the price list; both yield the zeroed
summary, never an error. -/
def spotVsOndemand (workload : Workload) (resp : Option SpotPayload) : SpotSummary :=
  match resp with
  | some p =>
    let on_demand_monthly := p.on_demand_price * 730 * (workload.replicas : ℚ)
    let spot_monthly := p.spot_price * 730 * (workload.replicas : ℚ)
    let savings := on_demand_monthly - spot_monthly
    { on_demand_monthly := on_demand_monthly
      spot_monthly := spot_monthly
      monthly_savings := savings
      savings_percentage :=
        if 0 < on_demand_monthly then savings / on_demand_monthly * 100 else 0
      discount_percentage := p.discount_percentage }
  | none =>
    { on_demand_monthly := 0, spot_monthly := 0, monthly_savings := 0,
      savings_percentage := 0, discount_percentage := 0 }

/-- `models.OptimizationType`. -/
inductive OptimizationType
  | right_size_cpu
  | right_size_memory
  | reduce_replicas
  | increase_replicas
  | spot_instances
  | change_instance_type
  | consolidate_nodes
  | move_to_cheaper_region
  | scheduled_scaling
  | remove_unused
deriving DecidableEq, Repr

/-- `models.RiskLevel`. -/
inductive RiskLevel
  | low
  | medium
  | high
  | critical
deriving DecidableEq, Repr

/-- The serialized (wire) value of a `RiskLevel`, per `models.py`
(`LOW = "low"` etc.): this is what the optimizer API emits in JSON. -/
def riskLevelValue : RiskLevel → String
  | .low => "low"
  | .medium => "medium"
  | .high => "high"
  | .critical => "critical"

/-- `models.RiskAssessment` (pydantic bounds the score to `[0, 1]`). -/
structure RiskAssessment where
  level : RiskLevel
  score : ℚ
  factors : List String
  mitigation_steps : List String
deriving DecidableEq, Repr

/-- `models.RollbackPlan`. -/
structure RollbackPlan where
  steps : List String
  estimated_time_minutes : ℤ
  automation_available : Bool
deriving DecidableEq, Repr

/-- `Recommender.assess_risk` (the metrics argument defaults to `None` in
the source, hence the `Option`). -/
def assessRisk (workload : Workload) (optimization_type : OptimizationType)
    (metrics : Option WorkloadMetrics) : RiskAssessment :=
  let s0 : ℚ := 3/10
  let statefulset := workload.kind = "StatefulSet"
  let s1 := if statefulset then s0 + 2/10 else s0
  let singleReplica := workload.replicas = 1
  let s2 := if singleReplica then s1 + 15/100 else s1
  let highCpu : Bool :=
    (decide (optimization_type = .reduce_replicas) ||
      decide (optimization_type = .right_size_cpu)) &&
      (match metrics with
        | some m => decide (80 < m.cpu_utilization_pct)
        | none => false)
  let s3 := if highCpu then s2 + 2/10 else s2
  let spot := optimization_type = .spot_instances
  let risk_score := if spot then 1/2 else s3
  let level : RiskLevel :=
    if 7/10 ≤ risk_score then .high
    else if 1/2 ≤ risk_score then .medium
    else .low
  let factors :=
    (if statefulset then ["StatefulSet requires careful handling"] else []) ++
    (if singleReplica then ["Single replica - no redundancy"] else []) ++
    (if highCpu then ["High CPU utilization"] else []) ++
    (if spot then ["Spot instances can be interrupted"] else [])
  let mitigation_steps :=
    (if statefulset then ["Test in staging environment first"] else []) ++
    (if singleReplica then ["Consider increasing replicas before optimization"] else []) ++
    (if highCpu then ["Monitor performance closely after change"] else []) ++
    (if spot then
      ["Ensure application handles interruptions gracefully",
       "Maintain on-demand fallback capacity"] else [])
  { level := level
    score := pymin 1 risk_score
    factors := if factors = [] then ["Standard optimization"] else factors
    mitigation_steps :=
      if mitigation_steps = [] then ["Follow standard deployment procedures"]
      else mitigation_steps }

/-- `Recommender.create_rollback_plan` (Python numeric string formatting is
abstracted by `toString`). -/
def createRollbackPlan (workload : Workload) (optimization_type : OptimizationType) :
    RollbackPlan :=
  if optimization_type = .right_size_cpu ∨ optimization_type = .right_size_memory then
    { steps :=
        ["Restore original resource requests: " ++
          toString (repr workload.current_resources.cpu_request) ++ " CPU, " ++
          toString (repr workload.current_resources.memory_request) ++ " memory",
         "Apply updated manifest", "Verify pod stability"]
      estimated_time_minutes := 5, automation_available := true }
  else if optimization_type = .reduce_replicas ∨ optimization_type = .increase_replicas then
    { steps := ["Scale back to " ++ toString workload.replicas ++ " replicas",
                "Verify all pods are running"]
      estimated_time_minutes := 2, automation_available := true }
  else if optimization_type = .spot_instances then
    { steps := ["Switch back to on-demand instances",
                "Verify application availability", "Monitor for stability"]
      estimated_time_minutes := 10, automation_available := true }
  else if optimization_type = .scheduled_scaling then
    { steps := ["Remove HorizontalPodAutoscaler or CronJob",
                "Set replicas to constant " ++ toString workload.replicas]
      estimated_time_minutes := 5, automation_available := true }
  else
    { steps := ["Revert to previous configuration", "Verify workload health"]
      estimated_time_minutes := 5, automation_available := true }

/-- `models.OptimizationRecommendation`, restricted to the fields the
claims and the control loop read (free-text/id/timestamp fields omitted). -/
structure Rec where
  optimization_type : OptimizationType
  current_cost : CostEstimate
  optimized_cost : CostEstimate
  monthly_savings : ℚ
  yearly_savings : ℚ
  savings_percentage : ℚ
  confidence_score : ℚ
  risk_assessment : RiskAssessment
  rollback_plan : RollbackPlan
deriving DecidableEq, Repr

/-- The pydantic field bounds validated when an
`OptimizationRecommendation` is constructed: `monthly_savings ≥ 0`,
`yearly_savings ≥ 0`, `savings_percentage ∈ [0, 100]`,
`confidence_score ∈ [0, 1]`. (Pydantic v2 does not re-validate already
constructed nested model instances.) -/
def recValid (r : Rec) : Prop :=
  0 ≤ r.monthly_savings ∧ 0 ≤ r.yearly_savings ∧
    0 ≤ r.savings_percentage ∧ r.savings_percentage ≤ 100 ∧
    0 ≤ r.confidence_score ∧ r.confidence_score ≤ 1

instance (r : Rec) : Decidable (recValid r) := by
  unfold recValid; infer_instance

/-- The savings-percentage expression shared by the recommendation
constructors: `savings / current_cost.monthly * 100` when the current
monthly cost is positive, else 0. -/
def savingsPercentage (savings monthly : ℚ) : ℚ :=
  if 0 < monthly then savings / monthly * 100 else 0

/-- The fixed risk assessment of
`Recommender._create_spot_instance_recommendation` (lines 185-190). -/
def spotRiskAssessment : RiskAssessment :=
  { level := .medium, score := 1/2
    factors := ["Potential spot instance interruptions",
                "Requires fault-tolerant application design"]
    mitigation_steps := ["Ensure replicas > 1", "Implement graceful shutdown",
                         "Use spot instance pools"] }

/-- The fixed rollback plan of the spot-instance recommendation. -/
def spotRollbackPlan : RollbackPlan :=
  { steps := ["Scale back to on-demand instances", "Verify application stability"]
    estimated_time_minutes := 5, automation_available := true }

/-- The fixed risk assessment of
`Recommender._create_unused_resource_recommendation` (lines 283-288). -/
def unusedRiskAssessment : RiskAssessment :=
  { level := .low, score := 2/10
    factors := ["Very low resource utilization detected", "Workload may be unused"]
    mitigation_steps := ["Verify workload purpose", "Check application logs",
                         "Coordinate with team"] }

/-- The fixed rollback plan of the unused-resource recommendation. -/
def unusedRollbackPlan : RollbackPlan :=
  { steps := ["Restore from backup", "Redeploy from manifest"]
    estimated_time_minutes := 10, automation_available := true }

/-- `Recommender._create_right_sizing_recommendation`. `Except.error` models
an escaping pydantic `ValidationError`; `ok none` models `return None`. -/
def rightSizingFamily (workload : Workload) (metrics : WorkloadMetrics)
    (current_cost : CostEstimate) (resp : Option PricingPayload) :
    Except Unit (Option Rec) :=
  let rsz := rightSizeResources workload metrics
  if rsz.1 = workload.current_resources then .ok none
  else
    let recommended_config : RecommendedConfig :=
      { cpu_request := some rsz.1.cpu_request,
        memory_request := some rsz.1.memory_request,
        replicas := some workload.replicas }
    match calculateOptimizedCosts workload recommended_config resp with
    | .error e => .error e
    | .ok optimized_cost =>
      let savings := current_cost.monthly - optimized_cost.monthly
      if savings ≤ 0 then .ok none
      else
        let r : Rec :=
          { optimization_type := .right_size_cpu
            current_cost := current_cost
            optimized_cost := optimized_cost
            monthly_savings := savings
            yearly_savings := savings * 12
            savings_percentage := savingsPercentage savings current_cost.monthly
            confidence_score := rsz.2
            risk_assessment := assessRisk workload .right_size_cpu (some metrics)
            rollback_plan := createRollbackPlan workload .right_size_cpu }
        if recValid r then .ok (some r) else .error ()

/-- `Recommender._create_replica_optimization_recommendation`. The error on
`replicas = 0` is the ZeroDivisionError of `optimize_replicas`. -/
def replicaFamily (workload : Workload) (metrics : WorkloadMetrics)
    (current_cost : CostEstimate) (resp : Option PricingPayload) :
    Except Unit (Option Rec) :=
  match optimizeReplicas workload metrics 70 with
  | none => .error ()
  | some rc =>
    if rc.1 = workload.replicas then .ok none
    else
      let recommended_config : RecommendedConfig :=
        { cpu_request := some workload.current_resources.cpu_request,
          memory_request := some workload.current_resources.memory_request,
          replicas := some rc.1 }
      match calculateOptimizedCosts workload recommended_config resp with
      | .error e => .error e
      | .ok optimized_cost =>
        let savings := current_cost.monthly - optimized_cost.monthly
        if savings ≤ 0 then .ok none
        else
          let opt_type : OptimizationType :=
            if rc.1 < workload.replicas then .reduce_replicas else .increase_replicas
          let r : Rec :=
            { optimization_type := opt_type
              current_cost := current_cost
              optimized_cost := optimized_cost
              monthly_savings := savings
              yearly_savings := savings * 12
              savings_percentage := savingsPercentage savings current_cost.monthly
              confidence_score := rc.2
              risk_assessment := assessRisk workload opt_type (some metrics)
              rollback_plan := createRollbackPlan workload opt_type }
          if recValid r then .ok (some r) else .error ()

/-- `Recommender._create_spot_instance_recommendation`. -/
def spotFamily (workload : Workload) (metrics : WorkloadMetrics)
    (current_cost : CostEstimate) (spotResp : Option SpotPayload) :
    Except Unit (Option Rec) :=
  let s := recommendSpotInstances workload metrics
  if s.1 then
    let spot_data := spotVsOndemand workload spotResp
    let savings := spot_data.monthly_savings
    if savings ≤ 0 then .ok none
    else
      let optimized_cost : CostEstimate :=
        { current_cost with monthly := spot_data.spot_monthly,
                            yearly := spot_data.spot_monthly * 12 }
      let r : Rec :=
        { optimization_type := .spot_instances
          current_cost := current_cost
          optimized_cost := optimized_cost
          monthly_savings := savings
          yearly_savings := savings * 12
          savings_percentage := savingsPercentage savings current_cost.monthly
          confidence_score := s.2.1
          risk_assessment := spotRiskAssessment
          rollback_plan := spotRollbackPlan }
      if recValid r then .ok (some r) else .error ()
  else .ok none

/-- `Recommender._create_scheduled_scaling_recommendation`. -/
def scheduledFamily (workload : Workload) (metrics : WorkloadMetrics)
    (current_cost : CostEstimate) : Except Unit (Option Rec) :=
  let opp := detectScheduledScalingOpportunity metrics
  if opp.suitable then
    let scale_down_factor := opp.off_peak_scale_down.getD (1/2)
    let estimated_savings := current_cost.monthly * (1 - scale_down_factor) * (1/2)
    if estimated_savings ≤ 0 then .ok none
    else
      let optimized_cost : CostEstimate :=
        { current_cost with monthly := current_cost.monthly - estimated_savings,
                            yearly := (current_cost.monthly - estimated_savings) * 12 }
      let r : Rec :=
        { optimization_type := .scheduled_scaling
          current_cost := current_cost
          optimized_cost := optimized_cost
          monthly_savings := estimated_savings
          yearly_savings := estimated_savings * 12
          savings_percentage := savingsPercentage estimated_savings current_cost.monthly
          confidence_score := opp.confidence.getD (7/10)
          risk_assessment := assessRisk workload .scheduled_scaling (some metrics)
          rollback_plan := createRollbackPlan workload .scheduled_scaling }
      if recValid r then .ok (some r) else .error ()
  else .ok none

/-- `Recommender._create_unused_resource_recommendation` guarded by
`detect_unused_resources` exactly as in `generate_recommendations`. -/
def unusedFamily (_workload : Workload) (metrics : WorkloadMetrics)
    (current_cost : CostEstimate) : Except Unit (Option Rec) :=
  if detectUnusedResources metrics 5 then
    let r : Rec :=
      { optimization_type := .remove_unused
        current_cost := current_cost
        optimized_cost := { current_cost with monthly := 0, yearly := 0 }
        monthly_savings := current_cost.monthly
        yearly_savings := current_cost.yearly
        savings_percentage := 100
        confidence_score := 6/10
        risk_assessment := unusedRiskAssessment
        rollback_plan := unusedRollbackPlan }
    if recValid r then .ok (some r) else .error ()
  else .ok none

/-- The confidence filter of `generate_recommendations`: a produced
recommendation is appended when `confidence_score >= min_confidence`. -/
def keepConfident (min_confidence : ℚ) : Option Rec → List Rec
  | some r => if min_confidence ≤ r.confidence_score then [r] else []
  | none => []

/-- Stable insertion for descending sort by `monthly_savings` (ties keep
their original order, as Python's stable `list.sort`). -/
def insertBySavings (r : Rec) : List Rec → List Rec
  | [] => [r]
  | x :: xs =>
    if r.monthly_savings < x.monthly_savings then x :: insertBySavings r xs
    else r :: x :: xs

/-- `recommendations.sort(key=..., reverse=True)`. -/
def sortBySavingsDesc : List Rec → List Rec
  | [] => []
  | x :: xs => insertBySavings x (sortBySavingsDesc xs)

/-- The pricing-collaborator responses observed during one
`generate_recommendations` run (one HTTP exchange per cost lookup). -/
structure PricingOracle where
  current : Option PricingPayload
  optRightSize : Option PricingPayload
  optReplica : Option PricingPayload
  spot : Option SpotPayload
deriving DecidableEq, Repr

/-- `Recommender.generate_recommendations`. -/
def generateRecommendations (workload : Workload) (metrics : WorkloadMetrics)
    (min_confidence : ℚ) (o : PricingOracle) : Except Unit (List Rec) :=
  match fetchCurrentCosts workload o.current with
  | .error e => .error e
  | .ok current_cost =>
  match unusedFamily workload metrics current_cost with
  | .error e => .error e
  | .ok unusedR =>
  match rightSizingFamily workload metrics current_cost o.optRightSize with
  | .error e => .error e
  | .ok rightSizeR =>
  match replicaFamily workload metrics current_cost o.optReplica with
  | .error e => .error e
  | .ok replicaR =>
  match spotFamily workload metrics current_cost o.spot with
  | .error e => .error e
  | .ok spotR =>
  match scheduledFamily workload metrics current_cost with
  | .error e => .error e
  | .ok scheduledR =>
    .ok (sortBySavingsDesc
      (keepConfident min_confidence unusedR ++
       keepConfident min_confidence rightSizeR ++
       keepConfident min_confidence replicaR ++
       keepConfident min_confidence spotR ++
       keepConfident min_confidence scheduledR))

/-- The CostOptimization spec fields `periodic_optimization_check` reads,
after applying the `spec.get(..., default)` defaults. -/
structure CostOptSpec where
  dryRun : Bool
  autoApply : Bool
  minConfidence : ℚ
  maxRiskLevel : String
deriving DecidableEq, Repr

/-- The fields of the best-recommendation JSON payload that the tick's
gating logic reads (`monthly_savings`, `confidence_score`,
`risk_assessment.level` as the serialized string). -/
structure RecPayload where
  monthly_savings : ℚ
  confidence_score : ℚ
  risk_level : String
deriving DecidableEq, Repr

/-- The status sub-object fields the tick reads and patches. -/
structure CostOptStatus where
  phase : String
  appliedOptimizations : ℤ
  totalSavings : ℚ
deriving DecidableEq, Repr

/-- The operator's `risk_levels` dict lookup with default:
`risk_levels = {'LOW': 1, 'MEDIUM': 2, 'HIGH': 3, 'CRITICAL': 4}` and
`risk_levels.get(s, dflt)`. The keys are uppercase. -/
def riskLevelsGet (s : String) (dflt : ℤ) : ℤ :=
  if s = "LOW" then 1
  else if s = "MEDIUM" then 2
  else if s = "HIGH" then 3
  else if s = "CRITICAL" then 4
  else dflt

/-- The ordinal risk order low < medium < high < critical stated in the
spec (section 4.5). -/
def specRiskOrd : RiskLevel → ℕ
  | .low => 0
  | .medium => 1
  | .high => 2
  | .critical => 3

/-- `periodic_optimization_check` (operator/main.py lines 176-294),
restricted to its status outcome: `recommendation = none` models
`analyze_workload` returning nothing, `applySuccess` the boolean result of
`apply_optimization`. Timestamps, events, metrics counters and the
`currentRecommendation` snapshot are omitted. -/
def periodicOptimizationCheck (spec : CostOptSpec) (recommendation : Option RecPayload)
    (applySuccess : Bool) (status : CostOptStatus) : CostOptStatus :=
  match recommendation with
  | none => { status with phase := "Ready" }
  | some r =>
    let max_risk := riskLevelsGet spec.maxRiskLevel 2
    let current_risk := riskLevelsGet r.risk_level 4
    if spec.autoApply ∧ ¬spec.dryRun then
      if spec.minConfidence ≤ r.confidence_score ∧ current_risk ≤ max_risk then
        if applySuccess then
          { phase := "Applied"
            appliedOptimizations := status.appliedOptimizations + 1
            totalSavings := status.totalSavings + r.monthly_savings }
        else { status with phase := "Failed" }
      else { status with phase := "Ready" }
    else { status with phase := "Ready" }

/-- A `requests` or `limits` dict restricted to its cpu/memory keys. -/
structure ResourceMap where
  cpu : Option String
  memory : Option String
deriving DecidableEq, Repr

/-- The empty requests/limits dict. -/
def emptyRM : ResourceMap := { cpu := none, memory := none }

/-- A container's `resources` attribute (`V1ResourceRequirements`). -/
structure ContainerResources where
  requests : Option ResourceMap
  limits : Option ResourceMap
deriving DecidableEq, Repr

/-- `resources` with both dicts absent (`V1ResourceRequirements()`). -/
def emptyCR : ContainerResources := { requests := none, limits := none }

/-- A pod-template container as the handlers read it. -/
structure KContainer where
  resources : Option ContainerResources
deriving DecidableEq, Repr

/-- A live Deployment/StatefulSet as the handlers read and patch it. -/
structure KWorkload where
  replicas : ℤ
  containers : List KContainer
  annotations : Option (List (String × String))
  labels : Option (List (String × String))
deriving DecidableEq, Repr

/-- Dict key assignment on an association list. -/
def setKey (l : List (String × String)) (k v : String) : List (String × String) :=
  match l with
  | [] => [(k, v)]
  | (k0, v0) :: rest => if k0 = k then (k, v) :: rest else (k0, v0) :: setKey rest k v

/-- Dict key lookup on an association list. -/
def getKey (l : List (String × String)) (k : String) : Option String :=
  match l with
  | [] => none
  | (k0, v0) :: rest => if k0 = k then some v0 else getKey rest k

/-- The resource fields of `RollbackHandler._extract_resources` with
present-or-absent keys: a truthy `requests` dict yields both request keys
(defaulting missing entries to "0"), likewise for `limits`. -/
structure SnapResources where
  cpu_request : Option String
  memory_request : Option String
  cpu_limit : Option String
  memory_limit : Option String
deriving DecidableEq, Repr

/-- `RollbackHandler._extract_resources`: reads the first container; a
`None` or empty (falsy) `requests`/`limits` dict contributes no keys. -/
def extractResources (w : KWorkload) : SnapResources :=
  match w.containers with
  | [] => { cpu_request := none, memory_request := none,
            cpu_limit := none, memory_limit := none }
  | c :: _ =>
    match c.resources with
    | none => { cpu_request := none, memory_request := none,
                cpu_limit := none, memory_limit := none }
    | some res =>
      let reqPair : Option String × Option String :=
        match res.requests with
        | some rq =>
          if rq.cpu = none ∧ rq.memory = none then (none, none)
          else (some (rq.cpu.getD "0"), some (rq.memory.getD "0"))
        | none => (none, none)
      let limPair : Option String × Option String :=
        match res.limits with
        | some lm =>
          if lm.cpu = none ∧ lm.memory = none then (none, none)
          else (some (lm.cpu.getD "0"), some (lm.memory.getD "0"))
        | none => (none, none)
      { cpu_request := reqPair.1, memory_request := reqPair.2,
        cpu_limit := limPair.1, memory_limit := limPair.2 }

/-- The snapshot dict written by `RollbackHandler.store_original_state`
(name/kind/timestamp strings omitted). -/
structure RollbackState where
  replicas : ℤ
  resources : SnapResources
  annotations : List (String × String)
  labels : List (String × String)
deriving DecidableEq, Repr

/-- `RollbackHandler.store_original_state`: the state it persists in both
tiers (Redis with 7-day TTL and the ConfigMap). -/
def storeOriginalState (w : KWorkload) : RollbackState :=
  { replicas := w.replicas
    resources := extractResources w
    annotations := w.annotations.getD []
    labels := w.labels.getD [] }

/-- The `recommended_config` keys `_apply_deployment_optimization` reads. -/
structure ApplyConfig where
  replicas : Option ℤ
  cpu_request : Option String
  memory_request : Option String
  cpu_limit : Option String
  memory_limit : Option String
deriving DecidableEq, Repr

/-- The per-container mutation of `_apply_deployment_optimization`:
materialise `resources`/`requests`/`limits` and set the configured keys. -/
def applyContainerConfig (config : ApplyConfig) (c : KContainer) : KContainer :=
  let res := c.resources.getD emptyCR
  let rq := res.requests.getD emptyRM
  let rq1 := match config.cpu_request with
    | some v => { rq with cpu := some v }
    | none => rq
  let rq2 := match config.memory_request with
    | some v => { rq1 with memory := some v }
    | none => rq1
  let lm := res.limits.getD emptyRM
  let lm1 := match config.cpu_limit with
    | some v => { lm with cpu := some v }
    | none => lm
  let lm2 := match config.memory_limit with
    | some v => { lm1 with memory := some v }
    | none => lm1
  { resources := some { requests := some rq2, limits := some lm2 } }

/-- `OptimizationHandler._apply_deployment_optimization` (`now` is the
optimized-at timestamp string). -/
def applyDeploymentOptimization (w : KWorkload) (config : ApplyConfig)
    (now : String) : KWorkload :=
  let w1 := match config.replicas with
    | some r => { w with replicas := r }
    | none => w
  let w2 :=
    if config.cpu_request.isSome ∨ config.memory_request.isSome then
      { w1 with containers := w1.containers.map (applyContainerConfig config) }
    else w1
  let anns := setKey (setKey (w2.annotations.getD [])
    "optimization.k8s.io/optimized-at" now)
    "optimization.k8s.io/optimized-by" "cost-optimizer-operator"
  { w2 with annotations := some anns }

/-- The per-container restore of `RollbackHandler._rollback_deployment`:
set each resource key present in the snapshot. -/
def rollbackContainer (resources : SnapResources) (c : KContainer) : KContainer :=
  let res := c.resources.getD emptyCR
  let rq := res.requests.getD emptyRM
  let rq1 := match resources.cpu_request with
    | some v => { rq with cpu := some v }
    | none => rq
  let rq2 := match resources.memory_request with
    | some v => { rq1 with memory := some v }
    | none => rq1
  let lm := res.limits.getD emptyRM
  let lm1 := match resources.cpu_limit with
    | some v => { lm with cpu := some v }
    | none => lm
  let lm2 := match resources.memory_limit with
    | some v => { lm1 with memory := some v }
    | none => lm1
  { resources := some { requests := some rq2, limits := some lm2 } }

/-- `RollbackHandler._rollback_deployment` (`now` is the rolled-back-at
timestamp string). -/
def rollbackDeployment (w : KWorkload) (st : RollbackState) (now : String) : KWorkload :=
  let w1 := { w with replicas := st.replicas,
                     containers := w.containers.map (rollbackContainer st.resources) }
  let anns := setKey (setKey (w1.annotations.getD [])
    "optimization.k8s.io/rolled-back-at" now)
    "optimization.k8s.io/rolled-back-by" "cost-optimizer-operator"
  { w1 with annotations := some anns }

/-- The four snapshot-resource readings of a container after restore:
every field present in the snapshot holds the snapshotted value. -/
def containerRestored (s : SnapResources) (c : KContainer) : Prop :=
  (∀ v, s.cpu_request = some v →
    ((c.resources.getD emptyCR).requests.getD emptyRM).cpu = some v) ∧
  (∀ v, s.memory_request = some v →
    ((c.resources.getD emptyCR).requests.getD emptyRM).memory = some v) ∧
  (∀ v, s.cpu_limit = some v →
    ((c.resources.getD emptyCR).limits.getD emptyRM).cpu = some v) ∧
  (∀ v, s.memory_limit = some v →
    ((c.resources.getD emptyCR).limits.getD emptyRM).memory = some v)

/-! ### Concrete inputs shared by witnesses and counterexamples -/

/-- All-zero metric statistics. -/
def zeroStats : MetricStats := ⟨0, 0, 0, 0, 0, 0⟩

/-- A zero-quantity resource spec (requests and limits "0"). -/
def zeroResources : ResourceSpec := ⟨.cores 0, .bytes 0, .cores 0, .bytes 0⟩

/-- Nearly idle metrics: 1 percent cpu and memory utilization. -/
def idleMetrics : WorkloadMetrics := ⟨zeroStats, zeroStats, 1, 1, 0, 0⟩

/-- A two-replica Deployment with zero resource requests. -/
def demoWorkload : Workload := ⟨"Deployment", 2, zeroResources⟩

/-- An oracle where every pricing call fails (fallback path) but the
spot-price lookup answers with a 50 percent discount. -/
def demoOracle : PricingOracle := ⟨none, none, none, some ⟨1/10, 1/20, 50⟩⟩

/-- The all-zero cost estimate (the fallback for a zero-request workload). -/
def zeroEstimate : CostEstimate := ⟨0, 0, 0, 0, ⟨0, 0, 0, 0, 0⟩⟩

/-- Metrics whose utilization puts the replica target exactly at the 8.5
endpoint of the claimed band for 10 current replicas (59.5 percent). -/
def bandEdgeMetrics : WorkloadMetrics := ⟨zeroStats, zeroStats, 119/2, 0, 0, 0⟩

/-- A ten-replica Deployment. -/
def tenWorkload : Workload := ⟨"Deployment", 10, zeroResources⟩

/-- Metrics with 75 percent cpu and 70 percent memory utilization. -/
def util7570Metrics : WorkloadMetrics := ⟨zeroStats, zeroStats, 75, 70, 0, 0⟩

/-- An eight-replica Deployment. -/
def eightWorkload : Workload := ⟨"Deployment", 8, zeroResources⟩

/-- Metrics whose memory variance is 0.35 and cpu variance 0: the averaged
variance 0.175 sits between the claimed 0.15 and 0.4 thresholds, yet the
memory dimension alone exceeds the code's 0.3 memory threshold. -/
def memBurstMetrics : WorkloadMetrics := ⟨⟨1, 1, 1, 1, 1, 1⟩, ⟨1, 1, 27/20, 1, 1, 1⟩, 50, 50, 0, 0⟩

/-- A one-container workload with full requests and limits. -/
def demoKW : KWorkload :=
  ⟨3, [⟨some ⟨some ⟨some "500m", some "256Mi"⟩, some ⟨some "1", some "512Mi"⟩⟩⟩],
    none, none⟩

/-- A recommended config patching replicas and requests. -/
def demoCfg : ApplyConfig := ⟨some 1, some "100m", some "128Mi", none, none⟩

instance : DecidableEq (Except Unit (List Rec)) := fun a b =>
  match a, b with
  | .error e1, .error e2 =>
    isTrue (by cases e1; cases e2; rfl)
  | .error _, .ok _ => isFalse (fun h => Except.noConfusion h)
  | .ok _, .error _ => isFalse (fun h => Except.noConfusion h)
  | .ok l1, .ok l2 =>
    if h : l1 = l2 then isTrue (by rw [h])
    else isFalse (fun hc => h (Except.ok.inj hc))

/-- The spot-instance recommendation produced at the demo input. -/
def demoSpotRec : Rec :=
  { optimization_type := .spot_instances
    current_cost := zeroEstimate
    optimized_cost := { zeroEstimate with monthly := 73, yearly := 876 }
    monthly_savings := 73
    yearly_savings := 876
    savings_percentage := 0
    confidence_score := 7/10
    risk_assessment := spotRiskAssessment
    rollback_plan := spotRollbackPlan }

/-- The unused-resource recommendation produced at the demo input. -/
def demoUnusedRec : Rec :=
  { optimization_type := .remove_unused
    current_cost := zeroEstimate
    optimized_cost := zeroEstimate
    monthly_savings := 0
    yearly_savings := 0
    savings_percentage := 100
    confidence_score := 6/10
    risk_assessment := unusedRiskAssessment
    rollback_plan := unusedRollbackPlan }

/-! ### Theorems -/

lemma le_pymax_left {α : Type} [LinearOrder α] (a b : α) : a ≤ pymax a b := by
  unfold pymax; split_ifs with h
  · exact h
  · exact le_refl a

lemma pymax_eq_right {α : Type} [LinearOrder α] {a b : α} (h : a ≤ b) :
    pymax a b = b := if_pos h

lemma pymin_le_left {α : Type} [LinearOrder α] (a b : α) : pymin a b ≤ a := by
  unfold pymin; split_ifs with h
  · exact le_refl a
  · exact le_of_not_le h

lemma pymin_le_right {α : Type} [LinearOrder α] (a b : α) : pymin a b ≤ b := by
  unfold pymin; split_ifs with h
  · exact h
  · exact le_refl b

lemma le_pymin {α : Type} [LinearOrder α] {a b c : α} (h1 : c ≤ a) (h2 : c ≤ b) :
    c ≤ pymin a b := by
  unfold pymin; split_ifs with h
  · exact h1
  · exact h2

lemma pymin_mono_right {α : Type} [LinearOrder α] {a b c : α} (h : b ≤ c) :
    pymin a b ≤ pymin a c :=
  le_pymin (pymin_le_left a b) (le_trans (pymin_le_right a b) h)

/-! ### Helper lemmas -/

lemma sampleCountBonus_nonneg (n : ℤ) : 0 ≤ sampleCountBonus n := by
  unfold sampleCountBonus; split_ifs <;> norm_num

lemma varianceBonus_nonneg (v : ℚ) : 0 ≤ varianceBonus v := by
  unfold varianceBonus; split_ifs <;> norm_num

lemma windowBonus_nonneg (h : ℤ) : 0 ≤ windowBonus h := by
  unfold windowBonus; split_ifs <;> norm_num

lemma extremeUtilBonus_nonneg (t : String) (c : ℚ) : 0 ≤ extremeUtilBonus t c := by
  unfold extremeUtilBonus; split_ifs <;> norm_num

lemma sampleCountBonus_mono {n₁ n₂ : ℤ} (h : n₁ ≤ n₂) :
    sampleCountBonus n₁ ≤ sampleCountBonus n₂ := by
  unfold sampleCountBonus; split_ifs <;> (try norm_num) <;> omega

lemma windowBonus_mono {h₁ h₂ : ℤ} (h : h₁ ≤ h₂) :
    windowBonus h₁ ≤ windowBonus h₂ := by
  unfold windowBonus; split_ifs <;> (try norm_num) <;> omega

lemma calculateConfidence_nonneg (m : WorkloadMetrics) (t : String) :
    0 ≤ calculateConfidence m t := by
  unfold calculateConfidence
  refine le_pymin (by norm_num) ?_
  have h1 := sampleCountBonus_nonneg m.sample_count
  have h2 := varianceBonus_nonneg
    ((calculateVariance m.cpu_usage + calculateVariance m.memory_usage) / 2)
  have h3 := windowBonus_nonneg m.time_range_hours
  have h4 := extremeUtilBonus_nonneg t m.cpu_utilization_pct
  linarith

lemma calculateConfidence_le_one (m : WorkloadMetrics) (t : String) :
    calculateConfidence m t ≤ 1 := by
  unfold calculateConfidence
  exact pymin_le_left _ _

/-- C7: `calculate_confidence` always lies in `[0, 1]` and, with the usage
statistics (hence variance) held fixed, is monotonically non-decreasing in
the sample count and in the observation-window length. -/
theorem confidence_bounds_and_monotone :
    (∀ (m : WorkloadMetrics) (t : String),
      0 ≤ calculateConfidence m t ∧ calculateConfidence m t ≤ 1) ∧
    (∀ (m : WorkloadMetrics) (t : String) (s₁ s₂ h₁ h₂ : ℤ),
      s₁ ≤ s₂ → h₁ ≤ h₂ →
      calculateConfidence { m with sample_count := s₁, time_range_hours := h₁ } t ≤
        calculateConfidence { m with sample_count := s₂, time_range_hours := h₂ } t) := by
  constructor
  · exact fun m t => ⟨calculateConfidence_nonneg m t, calculateConfidence_le_one m t⟩
  · intro m t s₁ s₂ h₁ h₂ hs hh
    unfold calculateConfidence
    refine pymin_mono_right ?_
    have hsb := sampleCountBonus_mono hs
    have hwb := windowBonus_mono hh
    dsimp only
    linarith

/-- C7 witness: the bounds and monotonicity theorem applied at concrete
metrics and counts. -/
theorem confidence_bounds_and_monotone_witness :
    (0 ≤ calculateConfidence ⟨⟨0,0,0,0,0,0⟩, ⟨0,0,0,0,0,0⟩, 50, 50, 200, 80⟩ "right_sizing" ∧
      calculateConfidence ⟨⟨0,0,0,0,0,0⟩, ⟨0,0,0,0,0,0⟩, 50, 50, 200, 80⟩ "right_sizing" ≤ 1) ∧
    ((100 : ℤ) ≤ 600 ∧ (10 : ℤ) ≤ 200 ∧
      calculateConfidence ⟨⟨0,0,0,0,0,0⟩, ⟨0,0,0,0,0,0⟩, 50, 50, 100, 10⟩ "none" ≤
        calculateConfidence ⟨⟨0,0,0,0,0,0⟩, ⟨0,0,0,0,0,0⟩, 50, 50, 600, 200⟩ "none") := by
  refine ⟨confidence_bounds_and_monotone.1 _ _, by norm_num, by norm_num, ?_⟩
  exact confidence_bounds_and_monotone.2
    ⟨⟨0,0,0,0,0,0⟩, ⟨0,0,0,0,0,0⟩, 50, 50, 0, 0⟩ "none" 100 600 10 200
    (by norm_num) (by norm_num)

lemma pyRound_le {t : ℚ} {n : ℤ} (h : t < (n : ℚ) + 1/2) : pyRound t ≤ n := by
  unfold pyRound
  dsimp only
  have hf : (⌊t⌋ : ℚ) ≤ t := Int.floor_le t
  split_ifs with h1 h2 h3
  · have hq : (⌊t⌋ : ℚ) < (n : ℚ) + 1 := by linarith
    have : ⌊t⌋ < n + 1 := by exact_mod_cast hq
    omega
  · have hq : (⌊t⌋ : ℚ) + 1/2 < (n : ℚ) + 1/2 := by linarith
    have : (⌊t⌋ : ℚ) < (n : ℚ) := by linarith
    have : ⌊t⌋ < n := by exact_mod_cast this
    omega
  · have ht : t = (⌊t⌋ : ℚ) + 1/2 := by linarith
    have : (⌊t⌋ : ℚ) < (n : ℚ) := by linarith
    have : ⌊t⌋ < n := by exact_mod_cast this
    omega
  · have ht : t = (⌊t⌋ : ℚ) + 1/2 := by linarith
    have : (⌊t⌋ : ℚ) < (n : ℚ) := by linarith
    have : ⌊t⌋ < n := by exact_mod_cast this
    omega

lemma le_pyRound {t : ℚ} {n : ℤ} (h : (n : ℚ) - 1/2 < t) : n ≤ pyRound t := by
  unfold pyRound
  dsimp only
  have hf : t < (⌊t⌋ : ℚ) + 1 := Int.lt_floor_add_one t
  split_ifs with h1 h2 h3
  · have hq : (n : ℚ) < (⌊t⌋ : ℚ) + 1 := by linarith
    have : n < ⌊t⌋ + 1 := by exact_mod_cast hq
    omega
  · have hq : (n : ℚ) < (⌊t⌋ : ℚ) + 2 := by linarith
    have : n < ⌊t⌋ + 2 := by exact_mod_cast hq
    omega
  · have ht : t = (⌊t⌋ : ℚ) + 1/2 := by linarith
    have hq : (n : ℚ) < (⌊t⌋ : ℚ) + 1 := by linarith
    have : n < ⌊t⌋ + 1 := by exact_mod_cast hq
    omega
  · have ht : t = (⌊t⌋ : ℚ) + 1/2 := by linarith
    have hq : (n : ℚ) < (⌊t⌋ : ℚ) + 1 := by linarith
    have : n < ⌊t⌋ + 1 := by exact_mod_cast hq
    omega

lemma one_le_optimizeReplicasRaw {w : Workload} (m : WorkloadMetrics)
    (h : 1 ≤ w.replicas) : 1 ≤ optimizeReplicasRaw w m 70 := by
  unfold optimizeReplicasRaw
  dsimp only
  set mu := pymax m.cpu_utilization_pct m.memory_utilization_pct with hmu
  set recommended := (if mu < 30 then
      if mu < 15 then pymax 1 ⌈(w.replicas : ℚ) * (1/2)⌉
      else pymax 1 (w.replicas - 1)
    else if 85 < mu then ⌈(w.replicas : ℚ) * (mu / 70)⌉
    else pymax 1 (pyRound ((w.replicas : ℚ) * (mu / 70)))) with hrec
  have hrecb : 1 ≤ recommended := by
    rw [hrec]
    split_ifs with h1 h2 h3
    · exact le_pymax_left (1 : ℤ) _
    · exact le_pymax_left (1 : ℤ) _
    · have hmupos : (0 : ℚ) < mu := by linarith
      have hr : (0 : ℚ) < (w.replicas : ℚ) := by exact_mod_cast by omega
      have hpos : (0 : ℚ) < (w.replicas : ℚ) * (mu / 70) := by positivity
      have := Int.ceil_pos.mpr hpos
      omega
    · exact le_pymax_left (1 : ℤ) _
  split_ifs with hg
  · exact h
  · exact hrecb

/-- C9: with at least one replica, `optimize_replicas` terminates normally
and recommends at least one replica; with zero replicas the anti-thrash
division raises (modelled as `none`), so the hypothesis is necessary. -/
theorem optimize_replicas_safe (w : Workload) (m : WorkloadMetrics) :
    (1 ≤ w.replicas →
      ∃ r c, optimizeReplicas w m 70 = some (r, c) ∧ 1 ≤ r) ∧
    (w.replicas = 0 → optimizeReplicas w m 70 = none) := by
  constructor
  · intro h
    have hne : ¬ w.replicas = 0 := by omega
    have hraw := one_le_optimizeReplicasRaw m h
    unfold optimizeReplicas
    rw [if_neg hne]
    dsimp only
    by_cases hth : (|optimizeReplicasRaw w m 70 - w.replicas| : ℚ) / (w.replicas : ℚ) < 15/100
    · exact ⟨w.replicas, calculateConfidence m "replica_optimization",
        by rw [if_pos hth], h⟩
    · exact ⟨optimizeReplicasRaw w m 70, calculateConfidence m "replica_optimization",
        by rw [if_neg hth], hraw⟩
  · intro h
    unfold optimizeReplicas
    rw [if_pos h]

/-- C9 witness: the safety theorem applied at two and at zero replicas. -/
theorem optimize_replicas_safe_witness :
    (∃ r c, optimizeReplicas demoWorkload idleMetrics 70 = some (r, c) ∧ 1 ≤ r) ∧
    optimizeReplicas ⟨"Deployment", 0, zeroResources⟩ idleMetrics 70 = none :=
  ⟨(optimize_replicas_safe demoWorkload idleMetrics).1 (by norm_num [demoWorkload]),
   (optimize_replicas_safe ⟨"Deployment", 0, zeroResources⟩ idleMetrics).2 rfl⟩

lemma optimizeReplicasRaw_middle {w : Workload} {m : WorkloadMetrics}
    (h30 : ¬ pymax m.cpu_utilization_pct m.memory_utilization_pct < 30)
    (h85 : ¬ 85 < pymax m.cpu_utilization_pct m.memory_utilization_pct)
    (hkind : w.kind ≠ "StatefulSet") :
    optimizeReplicasRaw w m 70 =
      pymax 1 (pyRound ((w.replicas : ℚ) *
        (pymax m.cpu_utilization_pct m.memory_utilization_pct / 70))) := by
  unfold optimizeReplicasRaw
  dsimp only
  rw [if_neg h30, if_neg h85, if_neg (fun hc => hkind hc.1)]

/-- C4 counterexample: at current replicas 10 and utilization 59.5 percent
the computed target is exactly 8.5, inside the claimed closed band
[8.5, 11.5], yet `optimize_replicas` returns 8 (Python's half-to-even
round gives 8, a 20 percent change that passes the anti-thrash test). -/
theorem anti_thrash_band_counterexample :
    (17/2 : ℚ) ≤ ((tenWorkload.replicas : ℚ) *
      (pymax bandEdgeMetrics.cpu_utilization_pct
        bandEdgeMetrics.memory_utilization_pct / 70)) ∧
    ((tenWorkload.replicas : ℚ) *
      (pymax bandEdgeMetrics.cpu_utilization_pct
        bandEdgeMetrics.memory_utilization_pct / 70)) ≤ 23/2 ∧
    optimizeReplicas tenWorkload bandEdgeMetrics 70 = some (8, 7/10) := by
  refine ⟨by with_unfolding_all decide, by with_unfolding_all decide,
    by with_unfolding_all decide⟩

/-- C4 amended: with 10 current replicas, a computed target strictly inside
(8.5, 11.5) rounds to 9, 10 or 11, so the anti-thrash rule keeps 10; and in
general a proposed change under 15 percent of a positive current replica
count keeps the current value. At the closed endpoints 8.5 and 11.5 the
half-to-even rounding leaves a 20 percent change and the target is kept
instead. -/
theorem anti_thrash_amended :
    (∀ (rs : ResourceSpec) (m : WorkloadMetrics),
      (17/2 : ℚ) < 10 * (pymax m.cpu_utilization_pct m.memory_utilization_pct / 70) →
      10 * (pymax m.cpu_utilization_pct m.memory_utilization_pct / 70) < 23/2 →
      optimizeReplicas ⟨"Deployment", 10, rs⟩ m 70 =
        some (10, calculateConfidence m "replica_optimization")) ∧
    (∀ (w : Workload) (m : WorkloadMetrics), 1 ≤ w.replicas →
      (|optimizeReplicasRaw w m 70 - w.replicas| : ℚ) / (w.replicas : ℚ) < 15/100 →
      optimizeReplicas w m 70 =
        some (w.replicas, calculateConfidence m "replica_optimization")) := by
  constructor
  · intro rs m h1 h2
    set mu := pymax m.cpu_utilization_pct m.memory_utilization_pct with hmudef
    have hgt : (119/2 : ℚ) < mu := by linarith
    have hlt : mu < 161/2 := by linarith
    have hraw : optimizeReplicasRaw ⟨"Deployment", 10, rs⟩ m 70 =
        pymax 1 (pyRound ((10 : ℚ) * (mu / 70))) := by
      rw [optimizeReplicasRaw_middle (by rw [← hmudef]; intro hc; linarith)
        (by rw [← hmudef]; intro hc; linarith) (by simp)]
      norm_num
    have h9 : 9 ≤ pyRound ((10 : ℚ) * (mu / 70)) := le_pyRound (by push_cast; linarith)
    have h11 : pyRound ((10 : ℚ) * (mu / 70)) ≤ 11 := pyRound_le (by push_cast; linarith)
    have hmax : pymax 1 (pyRound ((10 : ℚ) * (mu / 70))) =
        pyRound ((10 : ℚ) * (mu / 70)) := pymax_eq_right (by omega)
    unfold optimizeReplicas
    rw [if_neg (by norm_num)]
    dsimp only
    rw [hraw, hmax]
    rw [if_pos ?_]
    have habs : |pyRound ((10 : ℚ) * (mu / 70)) - 10| ≤ 1 := by
      rw [abs_le]; omega
    have habsq : (|pyRound ((10 : ℚ) * (mu / 70)) - 10| : ℚ) ≤ 1 := by
      exact_mod_cast habs
    show (|pyRound ((10 : ℚ) * (mu / 70)) - (10 : ℤ)| : ℚ) / ((10 : ℤ) : ℚ) < 15/100
    push_cast
    push_cast at habsq
    rw [div_lt_iff₀ (by norm_num)]
    linarith
  · intro w m h hth
    unfold optimizeReplicas
    rw [if_neg (by omega)]
    dsimp only
    rw [if_pos hth]

/-- C4 witness: the amended theorem at utilization 70 percent (target 10,
inside the open band) and at a two-replica workload whose raw proposal
equals the current count. -/
theorem anti_thrash_amended_witness :
    optimizeReplicas ⟨"Deployment", 10, zeroResources⟩ ⟨zeroStats, zeroStats, 70, 0, 0, 0⟩ 70 =
      some (10, calculateConfidence ⟨zeroStats, zeroStats, 70, 0, 0, 0⟩ "replica_optimization") ∧
    optimizeReplicas demoWorkload ⟨zeroStats, zeroStats, 70, 70, 0, 0⟩ 70 =
      some (demoWorkload.replicas,
        calculateConfidence ⟨zeroStats, zeroStats, 70, 70, 0, 0⟩ "replica_optimization") :=
  ⟨anti_thrash_amended.1 zeroResources ⟨zeroStats, zeroStats, 70, 0, 0, 0⟩
      (by with_unfolding_all decide) (by with_unfolding_all decide),
   anti_thrash_amended.2 demoWorkload ⟨zeroStats, zeroStats, 70, 70, 0, 0⟩
      (by decide) (by with_unfolding_all decide)⟩

/-- C5 counterexample: at replicas 8 and utilization 75/70 the raw target
8 times 75/70 does round to 9, but `optimize_replicas` returns 8: the
change is 12.5 percent, below the 15 percent anti-thrash band, so the
current count is kept. The claimed return value 9 is never produced. -/
theorem replica_scenario_counterexample :
    pyRound ((8 : ℚ) * (75 / 70)) = 9 ∧
    optimizeReplicas eightWorkload util7570Metrics 70 = some (8, 7/10) ∧
    (optimizeReplicas eightWorkload util7570Metrics 70).map Prod.fst ≠ some 9 := by
  refine ⟨by with_unfolding_all decide, by with_unfolding_all decide,
    by with_unfolding_all decide⟩

/-- C5 amended: for a Deployment with 8 replicas at 75/70 percent
utilization, the raw proposal is 9 (8 times 75/70 rounds to 9), but the
anti-thrash rule keeps the current value, so `optimize_replicas` returns 8
with the confidence computed by the confidence formula. -/
theorem replica_scenario_amended :
    ∀ (rs : ResourceSpec) (m : WorkloadMetrics),
      m.cpu_utilization_pct = 75 → m.memory_utilization_pct = 70 →
      optimizeReplicasRaw ⟨"Deployment", 8, rs⟩ m 70 = 9 ∧
      optimizeReplicas ⟨"Deployment", 8, rs⟩ m 70 =
        some (8, calculateConfidence m "replica_optimization") := by
  intro rs m h1 h2
  have hmu : pymax m.cpu_utilization_pct m.memory_utilization_pct = 75 := by
    rw [h1, h2]; with_unfolding_all decide
  have hraw : optimizeReplicasRaw ⟨"Deployment", 8, rs⟩ m 70 = 9 := by
    rw [optimizeReplicasRaw_middle (by rw [hmu]; norm_num) (by rw [hmu]; norm_num)
      (by simp)]
    rw [hmu]
    show pymax 1 (pyRound (((8 : ℤ) : ℚ) * ((75 : ℚ) / 70))) = 9
    with_unfolding_all decide
  refine ⟨hraw, ?_⟩
  unfold optimizeReplicas
  rw [if_neg (by norm_num)]
  dsimp only
  rw [hraw]
  rw [if_pos (by norm_num)]

/-- C5 witness: the amended theorem applied at the concrete 75/70 metrics. -/
theorem replica_scenario_amended_witness :
    optimizeReplicasRaw ⟨"Deployment", 8, zeroResources⟩ util7570Metrics 70 = 9 ∧
    optimizeReplicas ⟨"Deployment", 8, zeroResources⟩ util7570Metrics 70 =
      some (8, calculateConfidence util7570Metrics "replica_optimization") :=
  replica_scenario_amended zeroResources util7570Metrics rfl rfl

lemma detectPatterns_flags (m : WorkloadMetrics) :
    ((detectPatterns m).has_burst_pattern = true ↔
      4/10 < calculateVariance m.cpu_usage ∨
        3/10 < calculateVariance m.memory_usage) ∧
    ((detectPatterns m).has_steady_pattern = true ↔
      ¬(4/10 < calculateVariance m.cpu_usage ∨
          3/10 < calculateVariance m.memory_usage) ∧
        calculateVariance m.cpu_usage < 15/100 ∧
        calculateVariance m.memory_usage < 15/100) ∧
    ((detectPatterns m).has_business_hours_pattern = true ↔
      ¬(4/10 < calculateVariance m.cpu_usage ∨
          3/10 < calculateVariance m.memory_usage) ∧
        ¬(calculateVariance m.cpu_usage < 15/100 ∧
          calculateVariance m.memory_usage < 15/100)) := by
  unfold detectPatterns
  dsimp only
  split_ifs with h1 h2 h3 <;> simp_all

/-- C6 counterexample: at averaged variance 0.175 (inside (0.15, 0.4)) the
claim classifies business-hours-like, but `detect_patterns` flags a burst,
because the code tests `cpu_variance > 0.4 or memory_variance > 0.3`
per-dimension instead of the averaged variance. -/
theorem classify_pattern_counterexample :
    (calculateVariance memBurstMetrics.cpu_usage +
      calculateVariance memBurstMetrics.memory_usage) / 2 = 7/40 ∧
    ¬ ((4/10 : ℚ) < 7/40) ∧ ¬ ((7/40 : ℚ) < 15/100) ∧
    (detectPatterns memBurstMetrics).has_burst_pattern = true ∧
    (detectPatterns memBurstMetrics).has_business_hours_pattern = false := by
  refine ⟨by with_unfolding_all decide, by with_unfolding_all decide,
    by with_unfolding_all decide, by with_unfolding_all decide,
    by with_unfolding_all decide⟩

/-- C6 amended: `detect_patterns` computes variance = |p95 - p50| / avg per
dimension and classifies per-dimension: burst iff cpu variance > 0.4 or
memory variance > 0.3; steady iff neither holds and both variances are
below 0.15; otherwise business-hours-like. Utilization below 30 percent on
both dimensions overrides the recommended scaling to "downsize". -/
theorem classify_pattern_amended :
    ∀ m : WorkloadMetrics,
      ((detectPatterns m).has_burst_pattern = true ↔
        4/10 < calculateVariance m.cpu_usage ∨
          3/10 < calculateVariance m.memory_usage) ∧
      ((detectPatterns m).has_steady_pattern = true ↔
        ¬(4/10 < calculateVariance m.cpu_usage ∨
            3/10 < calculateVariance m.memory_usage) ∧
          calculateVariance m.cpu_usage < 15/100 ∧
          calculateVariance m.memory_usage < 15/100) ∧
      ((detectPatterns m).has_business_hours_pattern = true ↔
        ¬(4/10 < calculateVariance m.cpu_usage ∨
            3/10 < calculateVariance m.memory_usage) ∧
          ¬(calculateVariance m.cpu_usage < 15/100 ∧
            calculateVariance m.memory_usage < 15/100)) ∧
      (m.cpu_utilization_pct < 30 → m.memory_utilization_pct < 30 →
        (detectPatterns m).recommended_scaling = "downsize") ∧
      (∀ s : MetricStats, 0 < s.avg →
        calculateVariance s = |s.p95 - s.p50| / s.avg) := by
  intro m
  refine ⟨(detectPatterns_flags m).1, (detectPatterns_flags m).2.1,
    (detectPatterns_flags m).2.2, ?_, ?_⟩
  · intro hcpu hmem
    unfold detectPatterns
    dsimp only
    rw [if_pos ⟨hcpu, hmem⟩]
  · intro s hs
    unfold calculateVariance
    rw [if_neg (by linarith), if_pos hs, abs_div, abs_of_pos hs]

/-- C6 witness: the amended theorem at metrics with both utilizations at 10
percent (downsize override) and at statistics with positive average. -/
theorem classify_pattern_amended_witness :
    (detectPatterns ⟨⟨1, 1, 1, 1, 1, 1⟩, ⟨1, 1, 27/20, 1, 1, 1⟩, 10, 10, 0, 0⟩).recommended_scaling = "downsize" ∧
    calculateVariance ⟨2, 1, 3, 0, 0, 0⟩ = |(3 : ℚ) - 1| / 2 :=
  ⟨(classify_pattern_amended ⟨⟨1, 1, 1, 1, 1, 1⟩, ⟨1, 1, 27/20, 1, 1, 1⟩, 10, 10, 0, 0⟩).2.2.2.1
      (by norm_num) (by norm_num),
   (classify_pattern_amended memBurstMetrics).2.2.2.2 ⟨2, 1, 3, 0, 0, 0⟩ (by norm_num)⟩

lemma fallbackCostEstimate_valid {w : Workload}
    (hc : 0 ≤ parseCpu w.current_resources.cpu_request)
    (hm : 0 ≤ parseMemory w.current_resources.memory_request)
    (hr : 0 ≤ w.replicas) : estimateValid (fallbackCostEstimate w) := by
  have hgb : (0 : ℚ) ≤ (parseMemory w.current_resources.memory_request : ℚ) := by
    exact_mod_cast hm
  have hrq : (0 : ℚ) ≤ (w.replicas : ℚ) := by exact_mod_cast hr
  have hh : (0 : ℚ) ≤ (parseCpu w.current_resources.cpu_request * (4/100) +
      (parseMemory w.current_resources.memory_request : ℚ) / (1024 ^ 3) * (5/1000)) *
      (w.replicas : ℚ) := by
    refine mul_nonneg (add_nonneg (mul_nonneg hc (by norm_num)) ?_) hrq
    exact mul_nonneg (div_nonneg hgb (by norm_num)) (by norm_num)
  unfold fallbackCostEstimate fallbackEstimateOf estimateValid
  dsimp only
  refine ⟨hh, by positivity, by positivity, by positivity, by positivity,
    by positivity, by positivity, by positivity, by positivity⟩

/-- C3: when the pricing collaborator fails in any way (`none` covers
timeout, error status and malformed payload), `fetch_current_costs`
returns, without raising, the local fallback: hourly =
(cpu cores x 0.04 + memory GB x 0.005) x replicas, monthly = hourly x 730,
and a 70/20/5/5 percent compute/memory/storage/network split; moreover
for every collaborator response the result is a valid cost estimate. -/
theorem cost_fallback (w : Workload)
    (hc : 0 ≤ parseCpu w.current_resources.cpu_request)
    (hm : 0 ≤ parseMemory w.current_resources.memory_request)
    (hr : 0 ≤ w.replicas) :
    fetchCurrentCosts w none = .ok (fallbackCostEstimate w) ∧
    (fallbackCostEstimate w).hourly =
      (parseCpu w.current_resources.cpu_request * (4/100) +
        (parseMemory w.current_resources.memory_request : ℚ) / (1024 ^ 3) * (5/1000)) *
        (w.replicas : ℚ) ∧
    (fallbackCostEstimate w).monthly = (fallbackCostEstimate w).hourly * 730 ∧
    (fallbackCostEstimate w).breakdown.compute = (fallbackCostEstimate w).monthly * (7/10) ∧
    (fallbackCostEstimate w).breakdown.memory = (fallbackCostEstimate w).monthly * (2/10) ∧
    (fallbackCostEstimate w).breakdown.storage = (fallbackCostEstimate w).monthly * (5/100) ∧
    (fallbackCostEstimate w).breakdown.network = (fallbackCostEstimate w).monthly * (5/100) ∧
    (fallbackCostEstimate w).breakdown.total = (fallbackCostEstimate w).monthly ∧
    ∀ resp : Option PricingPayload,
      ∃ e, fetchCurrentCosts w resp = .ok e ∧ estimateValid e := by
  have hvalid := fallbackCostEstimate_valid hc hm hr
  refine ⟨?_, rfl, rfl, rfl, rfl, rfl, rfl, rfl, ?_⟩
  · unfold fetchCurrentCosts
    dsimp only
    rw [if_pos hvalid]
  · intro resp
    cases resp with
    | none =>
      refine ⟨fallbackCostEstimate w, ?_, hvalid⟩
      unfold fetchCurrentCosts
      dsimp only
      rw [if_pos hvalid]
    | some p =>
      by_cases hv : estimateValid (successEstimateOf p w.replicas)
      · refine ⟨successEstimateOf p w.replicas, ?_, hv⟩
        unfold fetchCurrentCosts
        dsimp only
        rw [if_pos hv]
      · refine ⟨fallbackCostEstimate w, ?_, hvalid⟩
        unfold fetchCurrentCosts
        dsimp only
        rw [if_neg hv, if_pos hvalid]

/-- C3 witness: the fallback theorem at the zero-request demo workload. -/
theorem cost_fallback_witness :
    (0 ≤ parseCpu demoWorkload.current_resources.cpu_request ∧
      0 ≤ parseMemory demoWorkload.current_resources.memory_request ∧
      0 ≤ demoWorkload.replicas) ∧
    fetchCurrentCosts demoWorkload none = .ok (fallbackCostEstimate demoWorkload) :=
  ⟨⟨by with_unfolding_all decide, by with_unfolding_all decide, by decide⟩,
   (cost_fallback demoWorkload (by with_unfolding_all decide)
      (by with_unfolding_all decide) (by decide)).1⟩

/-- C2: the operator's `risk_levels` map keys are uppercase while the
optimizer API serializes `RiskLevel` values lowercase, so every real
recommendation's level falls to the dict default 4 (critical) and the tick
leaves phase Ready, even when autoApply holds, dryRun is off, confidence
meets minConfidence and the risk is below maxRiskLevel in the spec's
ordinal order low < medium < high < critical. -/
theorem risk_gate_case_mismatch :
    (∀ l : RiskLevel, riskLevelsGet (riskLevelValue l) 4 = 4) ∧
    specRiskOrd .low ≤ specRiskOrd .medium ∧ ((7/10 : ℚ) ≤ 9/10) ∧
    (∀ (b : Bool) (st : CostOptStatus),
      periodicOptimizationCheck ⟨false, true, 7/10, "MEDIUM"⟩
        (some ⟨100, 9/10, riskLevelValue .low⟩) b st =
        { st with phase := "Ready" }) := by
  refine ⟨?_, by decide, by norm_num, ?_⟩
  · intro l; cases l <;> rfl
  · intro b st
    unfold periodicOptimizationCheck
    dsimp only
    rw [if_pos (by simp), if_neg (by with_unfolding_all decide)]

lemma getKey_setKey_self (l : List (String × String)) (k v : String) :
    getKey (setKey l k v) k = some v := by
  induction l with
  | nil => simp [setKey, getKey]
  | cons p rest ih =>
    unfold setKey
    by_cases h : p.1 = k
    · rw [if_pos h]
      unfold getKey
      rw [if_pos rfl]
    · rw [if_neg h]
      unfold getKey
      rw [if_neg h]
      exact ih

lemma getKey_setKey_ne (l : List (String × String)) (k k' v : String) (h : k' ≠ k) :
    getKey (setKey l k v) k' = getKey l k' := by
  induction l with
  | nil => simp [setKey, getKey, Ne.symm h]
  | cons p rest ih =>
    unfold setKey
    by_cases hp : p.1 = k
    · rw [if_pos hp]
      unfold getKey
      rw [if_neg (Ne.symm h), if_neg (fun hc => (Ne.symm h) (hp.symm.trans hc))]
    · rw [if_neg hp]
      unfold getKey
      by_cases hq : p.1 = k'
      · rw [if_pos hq, if_pos hq]
      · rw [if_neg hq, if_neg hq]
        exact ih

lemma rollbackContainer_restores (s : SnapResources) (c : KContainer) :
    containerRestored s (rollbackContainer s c) := by
  unfold containerRestored rollbackContainer
  dsimp only
  refine ⟨?_, ?_, ?_, ?_⟩
  · intro v hv
    cases hx : s.memory_request <;> simp [hv, hx]
  · intro v hv
    cases hx : s.cpu_request <;> simp [hv, hx]
  · intro v hv
    cases hx : s.memory_limit <;> simp [hv, hx]
  · intro v hv
    cases hx : s.cpu_limit <;> simp [hv, hx]

/-- C8: snapshotting a workload, mutating it with any recommended config,
then rolling back sets the replica count back to the snapshotted value
(which equals the pre-change count) and restores every resource
request/limit field present in the snapshot to the snapshotted value on
every container, stamping the rollback audit annotations. -/
theorem rollback_round_trip :
    ∀ (w : KWorkload) (config : ApplyConfig) (t1 t2 : String),
      (rollbackDeployment (applyDeploymentOptimization w config t1)
          (storeOriginalState w) t2).replicas = (storeOriginalState w).replicas ∧
      (storeOriginalState w).replicas = w.replicas ∧
      (∀ c ∈ (rollbackDeployment (applyDeploymentOptimization w config t1)
          (storeOriginalState w) t2).containers,
        containerRestored (storeOriginalState w).resources c) ∧
      getKey ((rollbackDeployment (applyDeploymentOptimization w config t1)
          (storeOriginalState w) t2).annotations.getD [])
        "optimization.k8s.io/rolled-back-at" = some t2 ∧
      getKey ((rollbackDeployment (applyDeploymentOptimization w config t1)
          (storeOriginalState w) t2).annotations.getD [])
        "optimization.k8s.io/rolled-back-by" = some "cost-optimizer-operator" := by
  intro w config t1 t2
  refine ⟨rfl, rfl, ?_, ?_, ?_⟩
  · intro c hc
    unfold rollbackDeployment at hc
    dsimp only at hc
    rcases List.mem_map.mp hc with ⟨c0, _, rfl⟩
    exact rollbackContainer_restores _ _
  · unfold rollbackDeployment
    dsimp only
    rw [Option.getD_some, getKey_setKey_ne _ _ _ _ (by decide), getKey_setKey_self]
  · unfold rollbackDeployment
    dsimp only
    rw [Option.getD_some, getKey_setKey_self]

/-- C8 witness: the round-trip theorem at the one-container demo workload;
the restored container carries the snapshotted values. -/
theorem rollback_round_trip_witness :
    (rollbackDeployment (applyDeploymentOptimization demoKW demoCfg "t1")
        (storeOriginalState demoKW) "t2").replicas = (storeOriginalState demoKW).replicas ∧
    containerRestored (storeOriginalState demoKW).resources
      ⟨some ⟨some ⟨some "500m", some "256Mi"⟩, some ⟨some "1", some "512Mi"⟩⟩⟩ :=
  ⟨(rollback_round_trip demoKW demoCfg "t1" "t2").1,
   (rollback_round_trip demoKW demoCfg "t1" "t2").2.2.1
     ⟨some ⟨some ⟨some "500m", some "256Mi"⟩, some ⟨some "1", some "512Mi"⟩⟩⟩
     (by decide)⟩

lemma mem_insertBySavings {r a : Rec} {l : List Rec} :
    a ∈ insertBySavings r l ↔ a = r ∨ a ∈ l := by
  induction l with
  | nil => simp [insertBySavings]
  | cons x xs ih =>
    unfold insertBySavings
    by_cases h : r.monthly_savings < x.monthly_savings
    · rw [if_pos h]
      simp only [List.mem_cons, ih]
      tauto
    · rw [if_neg h]
      simp only [List.mem_cons]

lemma mem_sortBySavingsDesc {a : Rec} {l : List Rec} :
    a ∈ sortBySavingsDesc l ↔ a ∈ l := by
  induction l with
  | nil => simp [sortBySavingsDesc]
  | cons x xs ih =>
    unfold sortBySavingsDesc
    rw [mem_insertBySavings]
    simp [ih]

lemma mem_keepConfident {mc : ℚ} {x : Option Rec} {r : Rec}
    (h : r ∈ keepConfident mc x) : x = some r ∧ mc ≤ r.confidence_score := by
  cases x with
  | none => simp [keepConfident] at h
  | some a =>
    simp only [keepConfident] at h
    by_cases hc : mc ≤ a.confidence_score
    · rw [if_pos hc] at h
      rcases List.mem_singleton.mp h with rfl
      exact ⟨rfl, hc⟩
    · rw [if_neg hc] at h
      simp at h

lemma generateRecommendations_ok_mem {w : Workload} {m : WorkloadMetrics}
    {mc : ℚ} {o : PricingOracle} {l : List Rec} {r : Rec}
    (hok : generateRecommendations w m mc o = .ok l) (hr : r ∈ l) :
    ∃ cc, fetchCurrentCosts w o.current = .ok cc ∧ mc ≤ r.confidence_score ∧
      (unusedFamily w m cc = .ok (some r) ∨
       rightSizingFamily w m cc o.optRightSize = .ok (some r) ∨
       replicaFamily w m cc o.optReplica = .ok (some r) ∨
       spotFamily w m cc o.spot = .ok (some r) ∨
       scheduledFamily w m cc = .ok (some r)) := by
  unfold generateRecommendations at hok
  cases hfc : fetchCurrentCosts w o.current with
  | error e => rw [hfc] at hok; exact absurd hok (by simp)
  | ok cc =>
  rw [hfc] at hok
  dsimp only at hok
  cases hu : unusedFamily w m cc with
  | error e => rw [hu] at hok; exact absurd hok (by simp)
  | ok uR =>
  rw [hu] at hok
  dsimp only at hok
  cases hrs : rightSizingFamily w m cc o.optRightSize with
  | error e => rw [hrs] at hok; exact absurd hok (by simp)
  | ok rsR =>
  rw [hrs] at hok
  dsimp only at hok
  cases hrp : replicaFamily w m cc o.optReplica with
  | error e => rw [hrp] at hok; exact absurd hok (by simp)
  | ok rpR =>
  rw [hrp] at hok
  dsimp only at hok
  cases hsp : spotFamily w m cc o.spot with
  | error e => rw [hsp] at hok; exact absurd hok (by simp)
  | ok spR =>
  rw [hsp] at hok
  dsimp only at hok
  cases hsc : scheduledFamily w m cc with
  | error e => rw [hsc] at hok; exact absurd hok (by simp)
  | ok scR =>
  rw [hsc] at hok
  dsimp only at hok
  have hl : l = sortBySavingsDesc
      (keepConfident mc uR ++ keepConfident mc rsR ++ keepConfident mc rpR ++
        keepConfident mc spR ++ keepConfident mc scR) :=
    (Except.ok.inj hok).symm
  subst hl
  have hmem := mem_sortBySavingsDesc.mp hr
  refine ⟨cc, rfl, ?_, ?_⟩
  · rcases List.mem_append.mp hmem with h5 | h5
    rcases List.mem_append.mp h5 with h4 | h4
    rcases List.mem_append.mp h4 with h3 | h3
    rcases List.mem_append.mp h3 with h2 | h2
    · exact (mem_keepConfident h2).2
    · exact (mem_keepConfident h2).2
    · exact (mem_keepConfident h3).2
    · exact (mem_keepConfident h4).2
    · exact (mem_keepConfident h5).2
  · rcases List.mem_append.mp hmem with h5 | h5
    rcases List.mem_append.mp h5 with h4 | h4
    rcases List.mem_append.mp h4 with h3 | h3
    rcases List.mem_append.mp h3 with h2 | h2
    · exact Or.inl ((mem_keepConfident h2).1 ▸ hu)
    · exact Or.inr (Or.inl ((mem_keepConfident h2).1 ▸ hrs))
    · exact Or.inr (Or.inr (Or.inl ((mem_keepConfident h3).1 ▸ hrp)))
    · exact Or.inr (Or.inr (Or.inr (Or.inl ((mem_keepConfident h4).1 ▸ hsp))))
    · exact Or.inr (Or.inr (Or.inr (Or.inr ((mem_keepConfident h5).1 ▸ hsc))))

lemma assessRisk_not_critical (w : Workload) (t : OptimizationType)
    (m : Option WorkloadMetrics) :
    (assessRisk w t m).level ≠ .critical ∧ (assessRisk w t m).score ≤ 17/20 := by
  unfold assessRisk
  dsimp only
  constructor
  · split_ifs <;> simp
  · refine le_trans (pymin_le_right _ _) ?_
    split_ifs <;> norm_num

lemma unusedFamily_ok {w : Workload} {m : WorkloadMetrics} {cc : CostEstimate}
    {r : Rec} (h : unusedFamily w m cc = .ok (some r)) :
    r.optimization_type = .remove_unused ∧ r.current_cost = cc ∧
    r.optimized_cost.monthly = 0 ∧ r.monthly_savings = cc.monthly ∧
    recValid r ∧ r.risk_assessment = unusedRiskAssessment := by
  unfold unusedFamily at h
  dsimp only at h
  split_ifs at h with h1 h2
  all_goals try (exfalso; exact Option.noConfusion (Except.ok.inj h))
  obtain rfl : _ = r := Option.some.inj (Except.ok.inj h)
  exact ⟨rfl, rfl, rfl, rfl, h2, rfl⟩

lemma rightSizingFamily_ok {w : Workload} {m : WorkloadMetrics}
    {cc : CostEstimate} {resp : Option PricingPayload} {r : Rec}
    (h : rightSizingFamily w m cc resp = .ok (some r)) :
    r.optimization_type = .right_size_cpu ∧ r.current_cost = cc ∧
    r.monthly_savings = r.current_cost.monthly - r.optimized_cost.monthly ∧
    0 < r.monthly_savings ∧ recValid r ∧
    r.risk_assessment.level ≠ .critical := by
  unfold rightSizingFamily at h
  dsimp only at h
  split_ifs at h with h1
  all_goals try (exfalso; exact Option.noConfusion (Except.ok.inj h))
  cases hoc : calculateOptimizedCosts w
      ⟨some (rightSizeResources w m).1.cpu_request,
       some (rightSizeResources w m).1.memory_request, some w.replicas⟩ resp with
  | error e => rw [hoc] at h; exact absurd h (by simp)
  | ok oc =>
    rw [hoc] at h
    dsimp only at h
    split_ifs at h with h2 h3
    all_goals try (exfalso; exact Option.noConfusion (Except.ok.inj h))
    obtain rfl : _ = r := Option.some.inj (Except.ok.inj h)
    exact ⟨rfl, rfl, rfl, not_le.mp h2, h3,
      (assessRisk_not_critical w .right_size_cpu (some m)).1⟩

lemma replicaFamily_ok {w : Workload} {m : WorkloadMetrics}
    {cc : CostEstimate} {resp : Option PricingPayload} {r : Rec}
    (h : replicaFamily w m cc resp = .ok (some r)) :
    (r.optimization_type = .reduce_replicas ∨
      r.optimization_type = .increase_replicas) ∧ r.current_cost = cc ∧
    r.monthly_savings = r.current_cost.monthly - r.optimized_cost.monthly ∧
    0 < r.monthly_savings ∧ recValid r ∧
    r.risk_assessment.level ≠ .critical := by
  unfold replicaFamily at h
  cases hopt : optimizeReplicas w m 70 with
  | none => rw [hopt] at h; exact Except.noConfusion h
  | some rc =>
    rw [hopt] at h
    dsimp only at h
    by_cases hlt : rc.1 < w.replicas
    · rw [if_pos hlt] at h
      split_ifs at h with h1
      all_goals try (exfalso; exact Option.noConfusion (Except.ok.inj h))
      cases hoc : calculateOptimizedCosts w
          ⟨some w.current_resources.cpu_request,
           some w.current_resources.memory_request, some rc.1⟩ resp with
      | error e => rw [hoc] at h; exact Except.noConfusion h
      | ok oc =>
        rw [hoc] at h
        dsimp only at h
        split_ifs at h with h2 h3
        all_goals try (exfalso; exact Option.noConfusion (Except.ok.inj h))
        obtain rfl : _ = r := Option.some.inj (Except.ok.inj h)
        exact ⟨Or.inl rfl, rfl, rfl, not_le.mp h2, h3,
          (assessRisk_not_critical w _ (some m)).1⟩
    · rw [if_neg hlt] at h
      split_ifs at h with h1
      all_goals try (exfalso; exact Option.noConfusion (Except.ok.inj h))
      cases hoc : calculateOptimizedCosts w
          ⟨some w.current_resources.cpu_request,
           some w.current_resources.memory_request, some rc.1⟩ resp with
      | error e => rw [hoc] at h; exact Except.noConfusion h
      | ok oc =>
        rw [hoc] at h
        dsimp only at h
        split_ifs at h with h2 h3
        all_goals try (exfalso; exact Option.noConfusion (Except.ok.inj h))
        obtain rfl : _ = r := Option.some.inj (Except.ok.inj h)
        exact ⟨Or.inr rfl, rfl, rfl, not_le.mp h2, h3,
          (assessRisk_not_critical w _ (some m)).1⟩

lemma spotFamily_ok {w : Workload} {m : WorkloadMetrics} {cc : CostEstimate}
    {resp : Option SpotPayload} {r : Rec}
    (h : spotFamily w m cc resp = .ok (some r)) :
    r.optimization_type = .spot_instances ∧ r.current_cost = cc ∧
    0 < r.monthly_savings ∧ recValid r ∧
    r.risk_assessment = spotRiskAssessment := by
  unfold spotFamily at h
  dsimp only at h
  split_ifs at h with h1 h2 h3
  all_goals try (exfalso; exact Option.noConfusion (Except.ok.inj h))
  obtain rfl : _ = r := Option.some.inj (Except.ok.inj h)
  exact ⟨rfl, rfl, not_le.mp h2, h3, rfl⟩

lemma scheduledFamily_ok {w : Workload} {m : WorkloadMetrics}
    {cc : CostEstimate} {r : Rec}
    (h : scheduledFamily w m cc = .ok (some r)) :
    r.optimization_type = .scheduled_scaling ∧ r.current_cost = cc ∧
    r.monthly_savings = r.current_cost.monthly - r.optimized_cost.monthly ∧
    0 < r.monthly_savings ∧ recValid r ∧
    r.risk_assessment.level ≠ .critical := by
  unfold scheduledFamily at h
  dsimp only at h
  split_ifs at h with h1 h2 h3
  all_goals try (exfalso; exact Option.noConfusion (Except.ok.inj h))
  obtain rfl : _ = r := Option.some.inj (Except.ok.inj h)
  refine ⟨rfl, rfl, ?_, not_le.mp h2, h3,
    (assessRisk_not_critical w .scheduled_scaling (some m)).1⟩
  dsimp only
  ring

/-- C1 amended: every recommendation emitted by
`generate_recommendations` has non-negative monthly savings; every family
except the spot family satisfies monthly_savings = current_cost.monthly -
optimized_cost.monthly (the spot family's savings come from the spot-price
gap instead); and every family except the unused-resource family has
strictly positive savings (an unused-resource recommendation for a
zero-cost workload is emitted with savings exactly 0). -/
theorem savings_invariant_amended :
    ∀ (w : Workload) (m : WorkloadMetrics) (mc : ℚ) (o : PricingOracle)
      (l : List Rec) (r : Rec),
      generateRecommendations w m mc o = .ok l → r ∈ l →
      0 ≤ r.monthly_savings ∧
      (r.optimization_type ≠ .spot_instances →
        r.monthly_savings = r.current_cost.monthly - r.optimized_cost.monthly) ∧
      (r.optimization_type ≠ .remove_unused → 0 < r.monthly_savings) := by
  intro w m mc o l r hok hr
  rcases generateRecommendations_ok_mem hok hr with ⟨cc, _, _, hfam⟩
  rcases hfam with hu | hrs | hrp | hsp | hsc
  · rcases unusedFamily_ok hu with ⟨ht, hcur, hopt, hsav, hval, _⟩
    refine ⟨hval.1, ?_, ?_⟩
    · intro _
      rw [hsav, hcur, hopt, sub_zero]
    · intro hne
      exact absurd ht hne
  · rcases rightSizingFamily_ok hrs with ⟨ht, _, heq, hpos, hval, _⟩
    exact ⟨hval.1, fun _ => heq, fun _ => hpos⟩
  · rcases replicaFamily_ok hrp with ⟨ht, _, heq, hpos, hval, _⟩
    exact ⟨hval.1, fun _ => heq, fun _ => hpos⟩
  · rcases spotFamily_ok hsp with ⟨ht, _, hpos, hval, _⟩
    refine ⟨hval.1, ?_, fun _ => hpos⟩
    intro hne
    exact absurd ht hne
  · rcases scheduledFamily_ok hsc with ⟨ht, _, heq, hpos, hval, _⟩
    exact ⟨hval.1, fun _ => heq, fun _ => hpos⟩

set_option maxRecDepth 8000 in
/-- C1 counterexample: a two-replica Deployment with zero resource requests
(fallback cost 0) and 1 percent utilization. The returned list contains an
unused-resource recommendation with monthly_savings = 0 (not strictly
positive) and a spot recommendation whose monthly_savings (73, from the
spot-price gap) differs from current_cost.monthly - optimized_cost.monthly
(0 - 73). -/
theorem savings_invariant_counterexample :
    generateRecommendations demoWorkload idleMetrics (1/2) demoOracle =
      .ok [demoSpotRec, demoUnusedRec] ∧
    ¬ (0 < demoUnusedRec.monthly_savings) ∧
    demoSpotRec.monthly_savings ≠
      demoSpotRec.current_cost.monthly - demoSpotRec.optimized_cost.monthly := by
  refine ⟨by with_unfolding_all decide, by with_unfolding_all decide,
    by with_unfolding_all decide⟩

set_option maxRecDepth 8000 in
/-- C1 witness: the amended theorem applied to the unused-resource
recommendation of the demo run. -/
theorem savings_invariant_amended_witness :
    0 ≤ demoUnusedRec.monthly_savings ∧
    (demoUnusedRec.optimization_type ≠ .spot_instances →
      demoUnusedRec.monthly_savings =
        demoUnusedRec.current_cost.monthly - demoUnusedRec.optimized_cost.monthly) ∧
    (demoUnusedRec.optimization_type ≠ .remove_unused →
      0 < demoUnusedRec.monthly_savings) :=
  savings_invariant_amended demoWorkload idleMetrics (1/2) demoOracle
    [demoSpotRec, demoUnusedRec] demoUnusedRec
    (by with_unfolding_all decide) (by simp)

/-- C10: `assess_risk` never returns a critical level and its score never
exceeds 0.85; the spot-instance and unused-resource recommendations carry
the fixed medium (score 0.5) and low (score 0.2) assessments; hence no
recommendation emitted by the Recommender carries a critical risk level. -/
theorem risk_never_critical :
    (∀ (w : Workload) (t : OptimizationType) (m : Option WorkloadMetrics),
      (assessRisk w t m).level ≠ .critical ∧ (assessRisk w t m).score ≤ 17/20) ∧
    spotRiskAssessment.level = .medium ∧ spotRiskAssessment.score = 1/2 ∧
    unusedRiskAssessment.level = .low ∧ unusedRiskAssessment.score = 1/5 ∧
    (∀ (w : Workload) (m : WorkloadMetrics) (mc : ℚ) (o : PricingOracle)
      (l : List Rec) (r : Rec),
      generateRecommendations w m mc o = .ok l → r ∈ l →
      r.risk_assessment.level ≠ .critical) := by
  refine ⟨assessRisk_not_critical, rfl, by norm_num [spotRiskAssessment], rfl,
    by norm_num [unusedRiskAssessment], ?_⟩
  intro w m mc o l r hok hr
  rcases generateRecommendations_ok_mem hok hr with ⟨cc, _, _, hfam⟩
  rcases hfam with hu | hrs | hrp | hsp | hsc
  · rw [(unusedFamily_ok hu).2.2.2.2.2]
    simp [unusedRiskAssessment]
  · exact (rightSizingFamily_ok hrs).2.2.2.2.2
  · exact (replicaFamily_ok hrp).2.2.2.2.2
  · rw [(spotFamily_ok hsp).2.2.2.2]
    simp [spotRiskAssessment]
  · exact (scheduledFamily_ok hsc).2.2.2.2.2

set_option maxRecDepth 8000 in
/-- C10 witness: the theorem applied at a concrete assessment and at the
spot recommendation of the demo run. -/
theorem risk_never_critical_witness :
    ((assessRisk demoWorkload .right_size_cpu (some idleMetrics)).level ≠ .critical ∧
      (assessRisk demoWorkload .right_size_cpu (some idleMetrics)).score ≤ 17/20) ∧
    demoSpotRec.risk_assessment.level ≠ .critical :=
  ⟨risk_never_critical.1 demoWorkload .right_size_cpu (some idleMetrics),
   risk_never_critical.2.2.2.2.2 demoWorkload idleMetrics (1/2) demoOracle
     [demoSpotRec, demoUnusedRec] demoSpotRec
     (by with_unfolding_all decide) (by simp)⟩

end KCO
